import Mathlib

/-!
Verification development for the smart-ring BLE core: a shallow embedding of
the data-normalization engine, the scan/connect coordinator, the health
retrieval protocol and the sync orchestrator, together with theorems about
the documented invariants.

Numeric values carried by vendor payloads are modelled as rationals; a JS
record (plain object with numeric fields) is an association list from field
names to rationals, an absent field being an absent key.  JS truthiness on a
numeric field is "present and nonzero".  Math.round is floor of x + 1/2.
-/

namespace SmartRing

/-- JS Math.round on an exact rational: floor of the value plus one half. -/
def jsRound (q : ℚ) : ℤ := ⌊q + 1 / 2⌋

/-- ASCII lower-casing of one character (the inputs handled by the device
type normalizer are ASCII key strings). -/
def asciiLowerChar (c : Char) : Char :=
  if 65 ≤ c.toNat ∧ c.toNat ≤ 90 then Char.ofNat (c.toNat + 32) else c

/-- The JS toLowerCase operation on the modelled key strings. -/
def asciiLower (s : String) : String := String.mk (s.data.map asciiLowerChar)

/-- The whitespace characters stripped by the JS trim operation. -/
def isSpaceChar (c : Char) : Bool := c = ' ' || c = '\t' || c = '\n' || c = '\r'

/-- The JS trim operation on the modelled key strings. -/
def asciiTrim (s : String) : String :=
  String.mk (((s.data.dropWhile isSpaceChar).reverse.dropWhile isSpaceChar).reverse)

/-- A vendor record: a plain object whose fields hold numbers, modelled as an
association list from field name to value. -/
def Rec : Type := List (String × ℚ)

instance : DecidableEq Rec := by
  unfold Rec
  infer_instance

/-- Field access on a record: the first entry with the given name. -/
def getField : Rec → String → Option ℚ
  | [], _ => none
  | p :: rest, f => if p.1 = f then some p.2 else getField rest f

/-- JS truthiness of an optional numeric value: present and nonzero. -/
def truthy (o : Option ℚ) : Bool := decide (o.getD 0 ≠ 0)

/-- The JS fallback chain `r.f1 || r.f2 || ... `: the first truthy field value
in the list, if any. -/
def firstTruthy (r : Rec) : List String → Option ℚ
  | [] => none
  | f :: fs => if (getField r f).getD 0 ≠ 0 then getField r f else firstTruthy r fs

/-- A raw vendor payload: named arrays of records, as an association list from
data path to record array (RawHealthData in the source). -/
def RawData : Type := List (String × List Rec)

instance : DecidableEq RawData := by
  unfold RawData
  infer_instance

/-- Modelled from the spec: DataValidator.extractDataArray is not under src/
(only its callers are).  Per the Field Mapping Table description, it reads the
record array named by the dataPath of the mapping. -/
def extractDataArray : RawData → String → Option (List Rec)
  | [], _ => none
  | p :: rest, path => if p.1 = path then some p.2 else extractDataArray rest path

/-- The JS assignment `rawData.combinedData = arr`: a functional update of the
payload under which later lookups of combinedData see arr and every other
path is unchanged. -/
def setCombinedData (raw : RawData) (arr : List Rec) : RawData :=
  ("combinedData", arr) :: raw

/-- Modelled from the spec: DataValidator.extractTimestamp is not under src/.
Per the spec, field lists are priority order and the first present non-null
field wins; a record with no usable timestamp yields 0 (falsy). -/
def extractTimestampDV (r : Rec) (fields : List String) : ℚ :=
  (firstTruthy r fields).getD 0

/-- Modelled from the spec: DataValidator.extractBestValue is not under src/.
Per the spec, the ordered field list is scanned and the first present value
passing the metric plausibility filter wins; 0 when none qualifies. -/
def extractBestValue (r : Rec) (valid : ℚ → Bool) : List String → ℚ
  | [] => 0
  | f :: fs =>
    if ((getField r f).map valid).getD false = true then (getField r f).getD 0
    else extractBestValue r valid fs

/-- Modelled from the spec: DataValidator.validateAndCleanData is not under
src/; the spec describes no transformation beyond shaping, so it is the
identity on the modelled payload. -/
def validateAndCleanData (raw : RawData) : RawData := raw

/-- The current local calendar day as a closed range of millisecond
timestamps (getTodayTimestampRange / the Vietnam day range in the source). -/
structure DayRange where
  dayStart : ℚ
  dayEnd : ℚ
  deriving Repr, DecidableEq

/-! PlatformUtils and the iOS steps processor, from the consolidated data
processors source file. -/

/-- PlatformUtils.roundValue: Number conversion then Math.round (the NaN case
does not arise for the modelled numeric values). -/
def roundValue (v : ℚ) : ℚ := (jsRound v : ℚ)

/-- PlatformUtils.hasHealthMetrics: the record carries a positive value in any
of the non-step health fields. -/
def hasHealthMetrics (r : Rec) : Bool :=
  decide (0 < (getField r "heartValue").getD 0) ||
  decide (0 < (getField r "heartRate").getD 0) ||
  decide (0 < (getField r "heart_rate").getD 0) ||
  decide (0 < (getField r "OOValue").getD 0) ||
  decide (0 < (getField r "spo2").getD 0) ||
  decide (0 < (getField r "bloodOxygen").getD 0) ||
  decide (0 < (getField r "SBPValue").getD 0) ||
  decide (0 < (getField r "DBPValue").getD 0) ||
  decide (0 < (getField r "systolic").getD 0) ||
  decide (0 < (getField r "diastolic").getD 0) ||
  decide (0 < (getField r "tempFloatValue").getD 0) ||
  decide (0 < (getField r "temperature").getD 0) ||
  decide (0 < (getField r "respiratoryRateValue").getD 0) ||
  decide (0 < (getField r "respirationRate").getD 0)

/-- The hasSteps test of PlatformUtils.filterStepRecords: one of the step
fields is truthy. -/
def hasStepsField (r : Rec) : Bool :=
  truthy (getField r "step") || truthy (getField r "steps") ||
  truthy (getField r "sportStep") || truthy (getField r "value")

/-- PlatformUtils.filterStepRecords: records that carry steps and no other
health metric. -/
def filterStepRecords (arr : List Rec) : List Rec :=
  arr.filter (fun r => hasStepsField r && !hasHealthMetrics r)

/-- PlatformUtils.extractSteps: the first truthy step-like field, rounded. -/
def extractSteps (r : Rec) : ℚ :=
  roundValue ((firstTruthy r ["sportStep", "step", "steps", "value", "stepValue"]).getD 0)

/-- PlatformUtils.toMilliseconds on a numeric value: scale values below the
ten-digit threshold from seconds to milliseconds. -/
def toMilliseconds (v : ℚ) : ℚ :=
  if v < 10000000000 then v * 1000 else v

/-- The ordered timestamp field list of PlatformUtils.extractTimestamp. -/
def puTimeFields : List String :=
  ["sportStartTime", "startTime", "time", "timestamp", "sportEndTime", "endTime", "endTimestamp"]

/-- PlatformUtils.extractTimestamp: the first truthy time field whose
millisecond conversion is positive. -/
def extractTimestampPU (r : Rec) : List String → ℚ
  | [] => 0
  | f :: fs =>
    if (getField r f).getD 0 ≠ 0 then
      (if 0 < toMilliseconds ((getField r f).getD 0) then toMilliseconds ((getField r f).getD 0)
       else extractTimestampPU r fs)
    else extractTimestampPU r fs

/-- PlatformUtils.isWithinCurrentDayGMT7: a nonzero millisecond timestamp
inside the current local day range. -/
def isWithinCurrentDayGMT7 (day : DayRange) (ms : ℚ) : Bool :=
  (ms != 0) && decide (day.dayStart ≤ ms) && decide (ms ≤ day.dayEnd)

/-- The result record of the steps processor. -/
structure StepsResult where
  steps : ℚ
  calories : ℚ
  distance : ℚ
  deriving Repr, DecidableEq

/-- The HealthCalculator collaborator is not under src/; its two derivation
functions are kept abstract as parameters of the processor. -/
structure HealthCalc where
  calcCaloriesFromSteps : ℚ → ℚ
  calcDistanceFromSteps : ℚ → ℚ

/-- The per-record calorie reading summed by the iOS steps processor. -/
def recordCalories (r : Rec) : ℚ :=
  roundValue ((firstTruthy r ["calories", "sportCalorie", "cal"]).getD 0)

/-- The per-record distance reading summed by the iOS steps processor. -/
def recordDistance (r : Rec) : ℚ :=
  roundValue ((firstTruthy r ["distance", "sportDistance"]).getD 0)

/-- IOSStepsProcessor.process: filter to pure step records, keep those inside
the current day, sum steps, calories and distance, derive calories from steps
when none were reported, and force calories to 0 whenever the summed step
count is 0. -/
def processStepsData (hc : HealthCalc) (day : DayRange) (dataArray : List Rec) : StepsResult :=
  if dataArray.isEmpty then ⟨0, 0, 0⟩
  else
    let stepRecords := filterStepRecords dataArray
    if stepRecords.isEmpty then ⟨0, 0, 0⟩
    else
      let inDay := stepRecords.filter
        (fun r => isWithinCurrentDayGMT7 day (extractTimestampPU r puTimeFields))
      let totalSteps := (inDay.map extractSteps).sum
      let totalCalories := (inDay.map recordCalories).sum
      let totalDistance := (inDay.map recordDistance).sum
      let caloriesRaw :=
        if 0 < totalCalories then totalCalories else hc.calcCaloriesFromSteps totalSteps
      let calories := if totalSteps = 0 then 0 else caloriesRaw
      let distance :=
        if 0 < totalDistance then totalDistance else hc.calcDistanceFromSteps totalSteps
      ⟨totalSteps, calories, distance⟩

/-- DataProcessors.processYCStepsData delegates to the shared processor. -/
def processYCStepsData (hc : HealthCalc) (day : DayRange) (arr : List Rec) : StepsResult :=
  processStepsData hc day arr

/-- DataProcessors.processRWStepsData delegates to the shared processor. -/
def processRWStepsData (hc : HealthCalc) (day : DayRange) (arr : List Rec) : StepsResult :=
  processStepsData hc day arr

/-! The static Field Mapping Table and the DeviceMapper, from the mappings and
types source files. -/

/-- One metric entry of the Field Mapping Table. -/
structure FieldMapping where
  dataPath : String
  valueFields : List String
  timestampFields : List String
  deriving Repr, DecidableEq

/-- The sleep entry of the Field Mapping Table. -/
structure SleepMapping where
  dataPath : String
  deepSleepFields : List String
  lightSleepFields : List String
  remSleepFields : List String
  timestampFields : List String
  deriving Repr, DecidableEq

/-- The blood-pressure entry of the Field Mapping Table. -/
structure BPMapping where
  dataPath : String
  systolicFields : List String
  diastolicFields : List String
  timestampFields : List String
  deriving Repr, DecidableEq

/-- A full per-vendor field mapping (DeviceFieldMapping in the source). -/
structure DeviceFieldMapping where
  heartRate : FieldMapping
  spo2 : FieldMapping
  bloodOxygen : FieldMapping
  steps : FieldMapping
  calories : FieldMapping
  distance : FieldMapping
  sleep : SleepMapping
  bloodPressure : BPMapping
  temperature : FieldMapping
  battery : FieldMapping
  deriving Repr, DecidableEq

/-- DEVICE_MAPPINGS.yc. -/
def mappingYC : DeviceFieldMapping where
  heartRate := ⟨ "heartRate", ["heartValue", "heartRate", "value"], ["time", "timestamp", "date"]⟩
  spo2 := ⟨ "bloodOxygen", ["OOValue", "bloodOxygen", "spo2", "value"], ["time", "timestamp", "date"]⟩
  bloodOxygen := ⟨ "bloodOxygen", ["OOValue", "bloodOxygen", "spo2", "value"], ["startTime", "time", "timestamp", "date"]⟩
  steps := ⟨ "step", ["stepValue", "sportStep", "step", "steps", "value"], ["time", "timestamp", "date"]⟩
  calories := ⟨ "step", ["sportCalorie", "calories", "calorie", "kcal", "cal", "value"], ["sportStartTime", "time", "timestamp", "date"]⟩
  distance := ⟨ "step", ["sportDistance", "distance", "dist", "km", "meters", "value"], ["sportStartTime", "time", "timestamp", "date"]⟩
  sleep := ⟨ "sleep", ["deepSleepSeconds", "deepSleepMinutes"], ["lightSleepSeconds", "lightSleepMinutes"], ["remSleepSeconds", "remSleepMinutes"], ["time", "timestamp", "date"]⟩
  bloodPressure := ⟨ "bloodPressure", ["systolic", "sbp", "high"], ["diastolic", "dbp", "low"], ["time", "timestamp", "date"]⟩
  temperature := ⟨ "temperature", ["temperature", "temp", "value"], ["time", "timestamp", "date"]⟩
  battery := ⟨ "battery", ["battery", "batteryLevel", "batteryPercent"], ["time", "timestamp", "date"]⟩

/-- DEVICE_MAPPINGS.rw. -/
def mappingRW : DeviceFieldMapping where
  heartRate := ⟨ "heartRate", ["heartRate", "hr", "value"], ["time", "timestamp", "date"]⟩
  spo2 := ⟨ "spo2", ["spo2", "oxygen", "value"], ["time", "timestamp", "date"]⟩
  bloodOxygen := ⟨ "spo2", ["spo2", "oxygen", "value"], ["time", "timestamp", "date"]⟩
  steps := ⟨ "steps", ["steps", "step", "value"], ["time", "timestamp", "date"]⟩
  calories := ⟨ "steps", ["calories", "calorie", "kcal", "cal", "value"], ["time", "timestamp", "date"]⟩
  distance := ⟨ "steps", ["distance", "dist", "km", "meters", "value"], ["time", "timestamp", "date"]⟩
  sleep := ⟨ "sleep", ["deepSleep", "deep"], ["lightSleep", "light"], ["remSleep", "rem"], ["time", "timestamp", "date"]⟩
  bloodPressure := ⟨ "bloodPressure", ["systolic", "high"], ["diastolic", "low"], ["time", "timestamp", "date"]⟩
  temperature := ⟨ "temperature", ["temperature", "temp"], ["time", "timestamp", "date"]⟩
  battery := ⟨ "battery", ["battery", "batteryLevel"], ["time", "timestamp", "date"]⟩

/-- DEVICE_MAPPINGS.android_yc. -/
def mappingAndroidYC : DeviceFieldMapping where
  heartRate := ⟨ "heartRate", ["heartValue", "heartRate", "value"], ["heartStartTime", "time", "timestamp", "date"]⟩
  spo2 := ⟨ "bloodOxygen", ["OOValue", "bloodOxygen", "spo2", "value"], ["startTime", "time", "timestamp", "date"]⟩
  bloodOxygen := ⟨ "bloodOxygen", ["OOValue", "bloodOxygen", "spo2", "value"], ["startTime", "time", "timestamp", "date"]⟩
  steps := ⟨ "step", ["stepValue", "sportStep", "step", "steps", "value"], ["time", "timestamp", "date"]⟩
  calories := ⟨ "step", ["sportCalorie", "calories", "calorie", "kcal", "cal", "value"], ["sportStartTime", "time", "timestamp", "date"]⟩
  distance := ⟨ "step", ["sportDistance", "distance", "dist", "km", "meters", "value"], ["sportStartTime", "time", "timestamp", "date"]⟩
  sleep := ⟨ "sleep", ["deepSleepTotal", "deepSleepSeconds", "deepSleepMinutes"], ["lightSleepTotal", "lightSleepSeconds", "lightSleepMinutes"], ["rapidEyeMovementTotal", "remSleepSeconds", "remSleepMinutes"], ["startTime", "endTime", "time", "timestamp", "date"]⟩
  bloodPressure := ⟨ "bloodPressure", ["bloodSBP", "systolic", "sbp", "high"], ["bloodDBP", "diastolic", "dbp", "low"], ["bloodStartTime", "time", "timestamp", "date"]⟩
  temperature := ⟨ "temperature", ["temperature", "temp", "value"], ["time", "timestamp", "date"]⟩
  battery := ⟨ "battery", ["battery", "batteryLevel", "batteryPercent"], ["time", "timestamp", "date"]⟩

/-- DEVICE_MAPPINGS.ios_yc. -/
def mappingIosYC : DeviceFieldMapping where
  heartRate := ⟨ "heartRate", ["heartValue", "heartRate", "value"], ["time", "timestamp", "date"]⟩
  spo2 := ⟨ "bloodOxygen", ["OOValue", "bloodOxygen", "spo2", "value"], ["time", "timestamp", "date"]⟩
  bloodOxygen := ⟨ "bloodOxygen", ["OOValue", "bloodOxygen", "spo2", "value"], ["startTime", "time", "timestamp", "date"]⟩
  steps := ⟨ "step", ["stepValue", "sportStep", "step", "steps", "value"], ["time", "timestamp", "date"]⟩
  calories := ⟨ "step", ["sportCalorie", "calories", "calorie", "kcal", "cal", "value"], ["sportStartTime", "time", "timestamp", "date"]⟩
  distance := ⟨ "step", ["sportDistance", "distance", "dist", "km", "meters", "value"], ["sportStartTime", "time", "timestamp", "date"]⟩
  sleep := ⟨ "sleep", ["deepSleepSeconds", "deepSleepMinutes"], ["lightSleepSeconds", "lightSleepMinutes"], ["remSleepSeconds", "remSleepMinutes"], ["time", "timestamp", "date"]⟩
  bloodPressure := ⟨ "bloodPressure", ["systolic", "sbp", "high"], ["diastolic", "dbp", "low"], ["time", "timestamp", "date"]⟩
  temperature := ⟨ "temperature", ["temperature", "temp", "value"], ["time", "timestamp", "date"]⟩
  battery := ⟨ "battery", ["battery", "batteryLevel", "batteryPercent"], ["time", "timestamp", "date"]⟩

/-- DEVICE_MAPPINGS.default. -/
def mappingDefault : DeviceFieldMapping where
  heartRate := ⟨ "heartRate", ["heartRate", "hr", "value"], ["time", "timestamp", "date"]⟩
  spo2 := ⟨ "spo2", ["spo2", "oxygen", "value"], ["time", "timestamp", "date"]⟩
  bloodOxygen := ⟨ "spo2", ["spo2", "oxygen", "value"], ["time", "timestamp", "date"]⟩
  steps := ⟨ "steps", ["steps", "step", "value"], ["time", "timestamp", "date"]⟩
  calories := ⟨ "steps", ["calories", "calorie", "kcal", "cal", "value"], ["time", "timestamp", "date"]⟩
  distance := ⟨ "steps", ["distance", "dist", "km", "meters", "value"], ["time", "timestamp", "date"]⟩
  sleep := ⟨ "sleep", ["deepSleep", "deep"], ["lightSleep", "light"], ["remSleep", "rem"], ["time", "timestamp", "date"]⟩
  bloodPressure := ⟨ "bloodPressure", ["systolic", "high"], ["diastolic", "low"], ["time", "timestamp", "date"]⟩
  temperature := ⟨ "temperature", ["temperature", "temp"], ["time", "timestamp", "date"]⟩
  battery := ⟨ "battery", ["battery", "batteryLevel"], ["time", "timestamp", "date"]⟩

/-- The DEVICE_MAPPINGS table as a keyed lookup. -/
def DEVICE_MAPPINGS (k : String) : Option DeviceFieldMapping :=
  if k = "yc" then some mappingYC
  else if k = "rw" then some mappingRW
  else if k = "android_yc" then some mappingAndroidYC
  else if k = "ios_yc" then some mappingIosYC
  else if k = "default" then some mappingDefault
  else none

/-- DeviceMapper.normalizeDeviceType: lower-case, trim, and map known vendor
aliases onto the two canonical vendor kinds. -/
def normalizeDeviceType (deviceType : String) : String :=
  if deviceType = "" then "yc"
  else
    let n := asciiTrim (asciiLower deviceType)
    if n = "yc" then "yc"
    else if n = "yichuang" then "yc"
    else if n = "yucheng" then "yc"
    else if n = "vita" then "yc"
    else if n = "rw" then "rw"
    else if n = "ringtech" then "rw"
    else if n = "ring" then "rw"
    else n

/-- The shared tail of DeviceMapper.getDeviceMapping: the plain key, then the
default mapping (which is always present). -/
def lookupMappingFallback (n : String) : DeviceFieldMapping :=
  match DEVICE_MAPPINGS n with
  | some m => m
  | none => mappingDefault

/-- DeviceMapper.getDeviceMapping: prefer the host-platform-qualified key,
then the plain key, then the default mapping. -/
def getDeviceMapping (hostPlatform : String) (deviceType : String) : DeviceFieldMapping :=
  if hostPlatform = "android" then
    match DEVICE_MAPPINGS ("android_" ++ normalizeDeviceType deviceType) with
    | some m => m
    | none => lookupMappingFallback (normalizeDeviceType deviceType)
  else if hostPlatform = "ios" then
    match DEVICE_MAPPINGS ("ios_" ++ normalizeDeviceType deviceType) with
    | some m => m
    | none => lookupMappingFallback (normalizeDeviceType deviceType)
  else lookupMappingFallback (normalizeDeviceType deviceType)

/-- DeviceMapper.applyPlatformAdjustments with the PLATFORM_ADJUSTMENTS
table: per host platform, override the timestamp-field priority lists of the
heart-rate, SpO2 and sleep entries; every other field is unchanged. -/
def applyPlatformAdjustments (m : DeviceFieldMapping) (platform : String) : DeviceFieldMapping :=
  if platform = "ios" then
    { m with
      heartRate := { m.heartRate with timestampFields := ["time", "heartStartTime", "timestamp", "startTime"] }
      spo2 := { m.spo2 with timestampFields := ["time", "startTime", "timestamp"] }
      sleep := { m.sleep with timestampFields := ["time", "startTime", "date"] } }
  else if platform = "android" then
    { m with
      heartRate := { m.heartRate with timestampFields := ["timestamp", "time", "startTime"] }
      spo2 := { m.spo2 with timestampFields := ["timestamp", "time", "startTime"] }
      sleep := { m.sleep with timestampFields := ["timestamp", "time", "date"] } }
  else m

/-! The DataNormalizerService metric normalizers.  Date.now() and the current
day range are explicit parameters; the rawData mutation performed by the
Android steps normalizer is explicit state passing. -/

/-- A value-bearing metric slot of the canonical record (current value plus
timestamp; the unit is a per-metric constant and is omitted). -/
structure MetricSlot where
  current : ℚ
  timestamp : ℚ
  deriving Repr, DecidableEq

/-- The sleep aggregate slot of the canonical record. -/
structure SleepSlot where
  totalMinutes : ℚ
  deepSleepMinutes : ℚ
  lightSleepMinutes : ℚ
  remSleepMinutes : ℚ
  totalSleepSeconds : ℚ
  totalDeepSleepSeconds : ℚ
  totalLightSleepSeconds : ℚ
  totalRemSleepSeconds : ℚ
  timestamp : ℚ
  deriving Repr, DecidableEq

/-- The blood-pressure slot of the canonical record. -/
structure BPSlot where
  systolic : ℚ
  diastolic : ℚ
  timestamp : ℚ
  deriving Repr, DecidableEq

/-- The canonical record produced by the Normalization Engine. -/
structure NormalizedHealthData where
  heartRate : Option MetricSlot
  spo2 : Option MetricSlot
  steps : Option MetricSlot
  calories : Option ℚ
  distance : Option ℚ
  sleep : Option SleepSlot
  bloodPressure : Option BPSlot
  temperature : Option MetricSlot
  battery : Option MetricSlot
  lastSync : ℚ
  deviceType : String
  platform : String
  deriving Repr, DecidableEq

/-- The `dataArray?.length` guard: an extracted array counts only when it is
present and non-empty. -/
def nonEmptyArr : Option (List Rec) → Option (List Rec)
  | some l => if l.isEmpty then none else some l
  | none => none

/-- DataNormalizerService.normalizeTimestamp: 0 for a falsy input, otherwise
scale sub-threshold values from seconds to milliseconds. -/
def normalizeTimestampDN (t : ℚ) : ℚ :=
  if t = 0 then 0
  else if t < 1000000000000 then t * 1000 else t

/-- DataNormalizerService.extractDataArrayForIOS: prefer the combined stream,
fall back to the dedicated per-metric array, remembering which source won. -/
def extractDataArrayForIOS (cleanedData : RawData) (combinedPath fallbackPath : String) :
    Option (List Rec) × String :=
  match nonEmptyArr (extractDataArray cleanedData combinedPath) with
  | some l => (some l, combinedPath)
  | none => (nonEmptyArr (extractDataArray cleanedData fallbackPath), fallbackPath)

/-- One step of the findBestValueInTimeRange scan, carrying the best
(timestamp, value) pair seen so far. -/
def bestInRangeStep (valueFields timestampFields : List String) (valid : ℚ → Bool)
    (range : DayRange) (acc : ℚ × ℚ) (r : Rec) : ℚ × ℚ :=
  let timestampMs := normalizeTimestampDN (extractTimestampDV r timestampFields)
  if timestampMs = 0 ∨ timestampMs < range.dayStart ∨ range.dayEnd < timestampMs then acc
  else
    let v := extractBestValue r valid valueFields
    if 0 < v ∧ acc.1 < timestampMs then (timestampMs, v) else acc

/-- DataNormalizerService.findBestValueInTimeRange: scan the array from the
last record to the first, keep the latest in-day record whose value passes
the plausibility filter. -/
def findBestValueInTimeRange (dataArray : List Rec) (valueFields timestampFields : List String)
    (valid : ℚ → Bool) (range : DayRange) : Option (ℚ × ℚ) :=
  let best := dataArray.reverse.foldl (bestInRangeStep valueFields timestampFields valid range) (0, 0)
  if 0 < best.2 ∧ 0 < best.1 then some (best.2, best.1) else none

/-- DataNormalizerService.normalizeHeartRateMetric. -/
def normalizeHeartRateMetric (rawData : RawData) (config : FieldMapping) (platform : String)
    (range : DayRange) : Option MetricSlot :=
  let cleanedData := validateAndCleanData rawData
  let extracted :=
    if platform = "ios" then
      let e := extractDataArrayForIOS cleanedData "combinedData" config.dataPath
      (e.1, if e.2 = "combinedData" then
              ["heartRate", "heartValue", "heart", "hr", "bpm", "value"]
            else config.valueFields)
    else (extractDataArray cleanedData config.dataPath, config.valueFields)
  match nonEmptyArr extracted.1 with
  | none => none
  | some dataArray =>
    match findBestValueInTimeRange dataArray extracted.2 config.timestampFields
        (fun v => decide (0 < v) && decide (v < 200)) range with
    | some (v, ts) => some ⟨v, ts⟩
    | none => none

/-- DataNormalizerService.normalizeSpo2Metric. -/
def normalizeSpo2Metric (rawData : RawData) (config : FieldMapping) (platform : String)
    (range : DayRange) : Option MetricSlot :=
  let cleanedData := validateAndCleanData rawData
  let extracted :=
    if platform = "ios" then
      let e := extractDataArrayForIOS cleanedData "combinedData" config.dataPath
      (e.1, if e.2 = "combinedData" then
              ["bloodOxygen", "spO2", "spo2", "OOValue", "spo2Value", "oxygenValue", "value"]
            else config.valueFields)
    else (extractDataArray cleanedData config.dataPath, config.valueFields)
  match nonEmptyArr extracted.1 with
  | none => none
  | some dataArray =>
    match findBestValueInTimeRange dataArray extracted.2 config.timestampFields
        (fun v => decide (0 < v) && decide (v ≤ 100)) range with
    | some (v, ts) => some ⟨v, ts⟩
    | none => none

/-- The isYCDevice test shared by the steps, calories and distance
normalizers. -/
def isYCDevice (deviceType : String) : Bool :=
  deviceType = "yc" || deviceType = "android_yc" || deviceType = "ios_yc"

/-- The combined-stream shape test of normalizeStepsMetricAndroid: the first
record carries one of the combined-stream value fields. -/
def isCombinedStepData (arr : List Rec) : Bool :=
  match arr.head? with
  | some r0 =>
    (getField r0 "stepValue").isSome || (getField r0 "heartValue").isSome ||
    (getField r0 "SBPValue").isSome || (getField r0 "OOValue").isSome ||
    (getField r0 "respiratoryRateValue").isSome
  | none => false

/-- DataNormalizerService.normalizeStepsMetricAndroid: detect a combined
stream (in which case the payload is mutated by aliasing the step array onto
combinedData), process the step sessions, and stamp the slot with the current
time.  The possibly mutated payload is returned alongside the slot. -/
def normalizeStepsMetricAndroid (rawData : RawData) (config : FieldMapping)
    (deviceType : String) (hc : HealthCalc) (day : DayRange) (now : ℚ) :
    Option MetricSlot × RawData :=
  match nonEmptyArr (extractDataArray rawData config.dataPath) with
  | none => (none, rawData)
  | some stepDataArray =>
    let rawData2 :=
      if isCombinedStepData stepDataArray then setCombinedData rawData stepDataArray
      else rawData
    let processedData :=
      if isYCDevice deviceType then processYCStepsData hc day stepDataArray
      else processRWStepsData hc day stepDataArray
    (some ⟨processedData.steps, now⟩, rawData2)

/-- DataNormalizerService.normalizeStepsMetricIOS. -/
def normalizeStepsMetricIOS (rawData : RawData) (config : FieldMapping)
    (deviceType : String) (hc : HealthCalc) (day : DayRange) (now : ℚ) : Option MetricSlot :=
  match nonEmptyArr (extractDataArray rawData config.dataPath) with
  | none => none
  | some dataArray =>
    let processedData :=
      if isYCDevice deviceType then processYCStepsData hc day dataArray
      else processRWStepsData hc day dataArray
    some ⟨processedData.steps, now⟩

/-- DataNormalizerService.normalizeStepsMetric: dispatch on the platform
argument; only the Android variant mutates the payload. -/
def normalizeStepsMetric (rawData : RawData) (config : FieldMapping) (deviceType : String)
    (platform : String) (hc : HealthCalc) (day : DayRange) (now : ℚ) :
    Option MetricSlot × RawData :=
  if platform = "android" then
    normalizeStepsMetricAndroid rawData config deviceType hc day now
  else (normalizeStepsMetricIOS rawData config deviceType hc day now, rawData)

/-- DataNormalizerService.normalizeCaloriesMetric: process the step sessions
named by the calories mapping and force the calories to 0 whenever the
processed step total is 0. -/
def normalizeCaloriesMetric (rawData : RawData) (config : FieldMapping)
    (deviceType : String) (hc : HealthCalc) (day : DayRange) : Option ℚ :=
  match nonEmptyArr (extractDataArray rawData config.dataPath) with
  | none => none
  | some dataArray =>
    let processedData :=
      if isYCDevice deviceType then processYCStepsData hc day dataArray
      else processRWStepsData hc day dataArray
    let steps := processedData.steps
    some (if steps = 0 then 0 else processedData.calories)

/-- DataNormalizerService.normalizeDistanceMetric. -/
def normalizeDistanceMetric (rawData : RawData) (config : FieldMapping)
    (deviceType : String) (hc : HealthCalc) (day : DayRange) : Option ℚ :=
  match nonEmptyArr (extractDataArray rawData config.dataPath) with
  | none => none
  | some dataArray =>
    let processedData :=
      if isYCDevice deviceType then processYCStepsData hc day dataArray
      else processRWStepsData hc day dataArray
    some processedData.distance

/-- One step of the battery scan: keep the latest record with a positive
battery reading. -/
def batteryStep (config : FieldMapping) (acc : ℚ × ℚ) (r : Rec) : ℚ × ℚ :=
  let battery := extractBestValue r (fun _ => true) config.valueFields
  let timestamp := extractTimestampDV r config.timestampFields
  if 0 < battery ∧ acc.2 < timestamp then (battery, timestamp) else acc

/-- DataNormalizerService.normalizeBatteryMetric. -/
def normalizeBatteryMetric (rawData : RawData) (config : FieldMapping) (now : ℚ) :
    Option MetricSlot :=
  match nonEmptyArr (extractDataArray rawData config.dataPath) with
  | none => none
  | some dataArray =>
    let best := dataArray.foldl (batteryStep config) (0, 0)
    if 0 < best.1 then
      some ⟨roundValue best.1, if best.2 ≠ 0 then best.2 else now⟩
    else none

/-- One step of the temperature scan: keep the latest record with a plausible
positive temperature. -/
def temperatureStep (config : FieldMapping) (acc : ℚ × ℚ) (r : Rec) : ℚ × ℚ :=
  let timestamp := extractTimestampDV r config.timestampFields
  let temperature :=
    extractBestValue r (fun v => decide (-10 < v) && decide (v < 100)) config.valueFields
  if 0 < temperature ∧ acc.1 < timestamp then (timestamp, temperature) else acc

/-- DataNormalizerService.normalizeTemperatureMetric (no day filtering in the
source). -/
def normalizeTemperatureMetric (rawData : RawData) (config : FieldMapping) :
    Option MetricSlot :=
  match nonEmptyArr (extractDataArray rawData config.dataPath) with
  | none => none
  | some dataArray =>
    let best := dataArray.foldl (temperatureStep config) (0, 0)
    if 0 < best.2 then some ⟨best.2, best.1⟩ else none

/-- The timestamp extracted from one blood-pressure record. -/
def bpTimestamp (config : BPMapping) (r : Rec) : ℚ :=
  extractTimestampDV r config.timestampFields

/-- The systolic reading extracted from one blood-pressure record, under the
plausibility filter (50, 300); 0 when no field qualifies. -/
def bpSystolic (config : BPMapping) (r : Rec) : ℚ :=
  extractBestValue r (fun v => decide (50 < v) && decide (v < 300)) config.systolicFields

/-- The diastolic reading extracted from one blood-pressure record, under the
plausibility filter (30, 200); 0 when no field qualifies. -/
def bpDiastolic (config : BPMapping) (r : Rec) : ℚ :=
  extractBestValue r (fun v => decide (30 < v) && decide (v < 200)) config.diastolicFields

/-- One step of the blood-pressure scan: keep the latest record in which both
the systolic and the diastolic reading pass their plausibility filters.  The
accumulator is (bestTimestamp, bestSystolic, bestDiastolic). -/
def bloodPressureStep (config : BPMapping) (acc : ℚ × ℚ × ℚ) (r : Rec) : ℚ × ℚ × ℚ :=
  if 0 < bpSystolic config r ∧ 0 < bpDiastolic config r ∧ acc.1 < bpTimestamp config r then
    (bpTimestamp config r, bpSystolic config r, bpDiastolic config r)
  else acc

/-- DataNormalizerService.normalizeBloodPressureMetric (no day filtering in
the source). -/
def normalizeBloodPressureMetric (rawData : RawData) (config : BPMapping) : Option BPSlot :=
  match nonEmptyArr (extractDataArray rawData config.dataPath) with
  | none => none
  | some dataArray =>
    let best := dataArray.foldl (bloodPressureStep config) (0, 0, 0)
    if 0 < best.2.1 ∧ 0 < best.2.2 then some ⟨best.2.1, best.2.2, best.1⟩ else none

/-- The MAX_SLEEP_MINUTES constant: 24 hours in minutes. -/
def MAX_SLEEP_MINUTES : ℚ := 24 * 60

/-- The session start in milliseconds used by the in-day sleep filter: the
mapped timestamp fields first, then the raw start fields with the short
seconds-to-milliseconds threshold. -/
def sleepSessionStartMs (config : SleepMapping) (session : Rec) : ℚ :=
  let t := extractTimestampDV session config.timestampFields
  if t ≠ 0 then t
  else
    let rawTime :=
      (firstTruthy session
        ["startTime", "time", "timestamp", "startTimeStamp", "startTimestamp"]).getD 0
    if rawTime < 10000000000 then rawTime * 1000 else rawTime

/-- The sleep sessions whose start lies within the current local day. -/
def currentDaySleepSessions (config : SleepMapping) (day : DayRange) (dataArray : List Rec) :
    List Rec :=
  dataArray.filter (fun session =>
    let finalSessionStartMs := sleepSessionStartMs config session
    (finalSessionStartMs != 0) && decide (day.dayStart ≤ finalSessionStartMs) &&
      decide (finalSessionStartMs ≤ day.dayEnd))

/-- One sleep stage duration in seconds: the mapped stage fields first, then
the per-minute raw field scaled by 60. -/
def sleepComponentSeconds (session : Rec) (fields : List String) (minutesField : String) : ℚ :=
  let e := extractBestValue session (fun _ => true) fields
  if e ≠ 0 then e
  else if truthy (getField session minutesField) then (getField session minutesField).getD 0 * 60
  else 0

/-- Total deep-sleep seconds over the in-day sessions. -/
def totalDeepSeconds (config : SleepMapping) (sessions : List Rec) : ℚ :=
  (sessions.map (fun s => sleepComponentSeconds s config.deepSleepFields "deepSleepMinutes")).sum

/-- Total light-sleep seconds over the in-day sessions. -/
def totalLightSeconds (config : SleepMapping) (sessions : List Rec) : ℚ :=
  (sessions.map (fun s => sleepComponentSeconds s config.lightSleepFields "lightSleepMinutes")).sum

/-- Total REM-sleep seconds over the in-day sessions. -/
def totalRemSeconds (config : SleepMapping) (sessions : List Rec) : ℚ :=
  (sessions.map (fun s => sleepComponentSeconds s config.remSleepFields "remSleepMinutes")).sum

/-- The latest session end time (endTime, else startTime) over the in-day
sessions, 0 when none is present. -/
def latestSleepEndTime (sessions : List Rec) : ℚ :=
  sessions.foldl
    (fun latest s =>
      let sessionEndTime := (firstTruthy s ["endTime", "startTime"]).getD 0
      if latest < sessionEndTime then sessionEndTime else latest) 0

/-- DataNormalizerService.createEmptySleepData. -/
def createEmptySleepData (now : ℚ) : SleepSlot :=
  ⟨0, 0, 0, 0, 0, 0, 0, 0, now⟩

/-- DataNormalizerService.normalizeSleepMetric: sum the three stage durations
over the in-day sessions, convert to minutes, and when the rounded total
exceeds 24 hours scale each stage by 1440 divided by that total so the
reported total is exactly 1440. -/
def normalizeSleepMetric (rawData : RawData) (config : SleepMapping) (day : DayRange)
    (now : ℚ) : Option SleepSlot :=
  match nonEmptyArr (extractDataArray rawData config.dataPath) with
  | none => some (createEmptySleepData now)
  | some dataArray =>
    let sessions := currentDaySleepSessions config day dataArray
    if sessions.isEmpty then some (createEmptySleepData now)
    else
      let totalDeepSleepSeconds := totalDeepSeconds config sessions
      let totalLightSleepSeconds := totalLightSeconds config sessions
      let totalRemSleepSeconds := totalRemSeconds config sessions
      let latestEndTime := latestSleepEndTime sessions
      let totalSeconds := totalDeepSleepSeconds + totalLightSleepSeconds + totalRemSleepSeconds
      let totalMinutes : ℚ := (jsRound (totalSeconds / 60) : ℚ)
      if MAX_SLEEP_MINUTES < totalMinutes then
        let ratio := MAX_SLEEP_MINUTES / totalMinutes
        some
          { totalMinutes := MAX_SLEEP_MINUTES
            deepSleepMinutes := (jsRound ((totalDeepSleepSeconds / 60) * ratio) : ℚ)
            lightSleepMinutes := (jsRound ((totalLightSleepSeconds / 60) * ratio) : ℚ)
            remSleepMinutes := (jsRound ((totalRemSleepSeconds / 60) * ratio) : ℚ)
            totalSleepSeconds := (jsRound (totalSeconds * ratio) : ℚ)
            totalDeepSleepSeconds := totalDeepSleepSeconds
            totalLightSleepSeconds := totalLightSleepSeconds
            totalRemSleepSeconds := totalRemSleepSeconds
            timestamp := if latestEndTime ≠ 0 then latestEndTime else now }
      else if 0 < totalMinutes then
        some
          { totalMinutes := totalMinutes
            deepSleepMinutes := (jsRound (totalDeepSleepSeconds / 60) : ℚ)
            lightSleepMinutes := (jsRound (totalLightSleepSeconds / 60) : ℚ)
            remSleepMinutes := (jsRound (totalRemSleepSeconds / 60) : ℚ)
            totalSleepSeconds := totalSeconds
            totalDeepSleepSeconds := totalDeepSleepSeconds
            totalLightSleepSeconds := totalLightSleepSeconds
            totalRemSleepSeconds := totalRemSleepSeconds
            timestamp := if latestEndTime ≠ 0 then latestEndTime else now }
      else none

/-- The all-null canonical record returned for a missing payload. -/
def nullHealthRecord (deviceType platform : String) (now : ℚ) : NormalizedHealthData :=
  { heartRate := none, spo2 := none, steps := none, calories := none, distance := none
    sleep := none, bloodPressure := none, temperature := none, battery := none
    lastSync := now, deviceType := deviceType, platform := platform }

/-- DataNormalizerService.normalizeHealthData.  The metric normalizers are
invoked in the JS evaluation order of the source (the Promise.all array is
built left to right and each normalizer body runs synchronously): heart rate
and SpO2 before the steps normalizer, whose Android variant may mutate the
payload; sleep, blood pressure, temperature, battery, calories and distance
after it, on the possibly mutated payload, which is also returned. -/
def normalizeHealthData (rawData : Option RawData) (deviceType platform hostPlatform : String)
    (hc : HealthCalc) (day : DayRange) (now : ℚ) : NormalizedHealthData × Option RawData :=
  match rawData with
  | none => (nullHealthRecord deviceType platform now, none)
  | some raw =>
    let baseMapping := getDeviceMapping hostPlatform deviceType
    let mapping := applyPlatformAdjustments baseMapping platform
    let heartRate := normalizeHeartRateMetric raw mapping.heartRate platform day
    let spo2 := normalizeSpo2Metric raw mapping.spo2 platform day
    let stepsOut := normalizeStepsMetric raw mapping.steps deviceType platform hc day now
    let raw2 := stepsOut.2
    let sleep := normalizeSleepMetric raw2 mapping.sleep day now
    let bloodPressure := normalizeBloodPressureMetric raw2 mapping.bloodPressure
    let temperature := normalizeTemperatureMetric raw2 mapping.temperature
    let battery := normalizeBatteryMetric raw2 mapping.battery now
    let calories := normalizeCaloriesMetric raw2 mapping.calories deviceType hc day
    let distance := normalizeDistanceMetric raw2 mapping.distance deviceType hc day
    ({ heartRate := heartRate, spo2 := spo2, steps := stepsOut.1, calories := calories
       distance := distance, sleep := sleep, bloodPressure := bloodPressure
       temperature := temperature, battery := battery, lastSync := now
       deviceType := deviceType, platform := platform }, some raw2)

/-! The DeviceScanner: the inner discovery retry loop with deduplication, the
outer lock-wait recursion of scanDevices, and the single-flight scan state. -/

/-- A discovered device as handed back by a vendor scanner; identifier fields
may be absent (undefined). -/
structure ScanDevice where
  uuid : Option String
  id : Option String
  name : String
  deriving Repr, DecidableEq

/-- JS truthiness of an optional string: present and non-empty. -/
def strTruthy : Option String → Bool
  | some s => s != ""
  | none => false

/-- The JS fallback `a || b` on optional strings. -/
def strOr (a b : Option String) : Option String :=
  if strTruthy a then a else b

/-- The per-device normalization of performScan: alias the alternate id field
onto the canonical uuid key and vice versa. -/
def normalizeScanDevice (d : ScanDevice) : ScanDevice :=
  { d with uuid := strOr d.uuid d.id, id := strOr d.id d.uuid }

/-- The first-occurrence deduplication of performScan: keep a device only when
no earlier device carries the same (canonical) uuid.  This is the findIndex
filter of the source written as a recursion over the list. -/
def dedupeFirstByUuid (seen : List (Option String)) : List ScanDevice → List ScanDevice
  | [] => []
  | d :: rest =>
    if d.uuid ∈ seen then dedupeFirstByUuid seen rest
    else d :: dedupeFirstByUuid (d.uuid :: seen) rest

/-- MAX_SCAN_RETRIES: the total number of discovery passes one scan may run. -/
def MAX_SCAN_RETRIES : ℕ := 2

/-- The environment of one performScan call: readiness flags and, as an
oracle, the device list produced by the discovery pass at a given attempt
index. -/
structure ScanEnv where
  bluetoothOk : Bool
  hasYCScanner : Bool
  hasRWScanner : Bool
  discover : ℕ → List ScanDevice

/-- The availability guards at the head of performScan: Bluetooth must be on
and a scanner matching the requested vendor must exist. -/
def scanGuardsPass (env : ScanEnv) (deviceType : Option String) : Bool :=
  env.bluetoothOk &&
    !(deviceType == some "yc" && !env.hasYCScanner) &&
    !(deviceType == some "rw" && !env.hasRWScanner) &&
    !(deviceType == none && !env.hasYCScanner && !env.hasRWScanner)

/-- DeviceScanner.performScan: run one discovery pass, normalize and dedupe
the devices, and recurse once more while the result is empty and fewer than
MAX_SCAN_RETRIES passes have run.  Returns the result together with the
number of discovery passes performed. -/
def performScan (env : ScanEnv) (deviceType : Option String) (attempt : ℕ) :
    List ScanDevice × ℕ :=
  if scanGuardsPass env deviceType = false then ([], 0)
  else
    let devices := env.discover attempt
    let normalized := devices.map normalizeScanDevice
    let unique := dedupeFirstByUuid [] normalized
    if h : unique.isEmpty ∧ attempt + 1 < MAX_SCAN_RETRIES then
      let rec2 := performScan env deviceType (attempt + 1)
      (rec2.1, rec2.2 + 1)
    else (unique, 1)
termination_by MAX_SCAN_RETRIES - attempt
decreasing_by
  omega

/-- The environment of one scanDevices call: the pending single-flight scan,
the two operation locks as seen at each recursion depth, and the scan result
when one actually runs. -/
structure ScanLockEnv where
  pending : ℕ → Option (List ScanDevice)
  connInProgress : ℕ → Bool
  healthOpInProgress : ℕ → Bool
  scanOutcome : List ScanDevice

/-- DeviceScanner.scanDevices: return the pending scan when one is in flight;
give up with an empty list at retry count 5; while the connect lock (or,
without bypassLocks, the health-fetch lock) is held, wait 1000 ms and recurse
with an incremented retry count; otherwise run the scan.  Returns the result
together with the list of waits performed (in ms). -/
def scanDevices (env : ScanLockEnv) (retryCount : ℕ) (bypassLocks : Bool) :
    List ScanDevice × List ℕ :=
  match env.pending retryCount with
  | some shared => (shared, [])
  | none =>
    if h5 : 5 ≤ retryCount then ([], [])
    else if env.connInProgress retryCount then
      let rec2 := scanDevices env (retryCount + 1) bypassLocks
      (rec2.1, 1000 :: rec2.2)
    else if bypassLocks = false ∧ env.healthOpInProgress retryCount then
      let rec2 := scanDevices env (retryCount + 1) bypassLocks
      (rec2.1, 1000 :: rec2.2)
    else (env.scanOutcome, [])
termination_by 5 - retryCount
decreasing_by
  all_goals omega

/-- The single-flight scan state: the shared in-flight scan task (scanPromise)
and a counter of discovery tasks launched so far.  Task handles are numbered
by launch order. -/
structure ScannerSF where
  scanPromise : Option ℕ
  launches : ℕ
  deriving Repr, DecidableEq

/-- One scan() caller arriving within a single scheduler turn: when a scan is
already in flight the caller is handed the same pending task; otherwise a new
discovery task is launched and recorded as the pending one. -/
def scanArrive (s : ScannerSF) : ScannerSF × ℕ :=
  match s.scanPromise with
  | some t => (s, t)
  | none => ({ scanPromise := some s.launches, launches := s.launches + 1 }, s.launches)

/-- A burst of n scan() callers arriving before the in-flight scan settles:
the final state together with the task handle each caller received. -/
def scanArriveMany (s : ScannerSF) : ℕ → ScannerSF × List ℕ
  | 0 => (s, [])
  | n + 1 =>
    let first := scanArrive s
    let rest := scanArriveMany first.1 n
    (rest.1, first.2 :: rest.2)

/-! The Health Retrieval Protocol: the bounded retry loop of
fetchHealthDataWithRetry with its recovery and scaled back-off. -/

/-- DATA_RETRY_ATTEMPTS. -/
def DATA_RETRY_ATTEMPTS : ℕ := 3

/-- RECOVERY_DELAY_MS. -/
def RECOVERY_DELAY_MS : ℕ := 2000

/-- The classification of a failure message by the retry loop: whether the
lower-cased message contains "locked", and whether it matches one of the
empty-payload patterns. -/
structure FailMsg where
  lockedMsg : Bool
  emptyMsg : Bool
  deriving Repr, DecidableEq

/-- The fresh EMPTY_DATA error the loop substitutes for an empty-payload
failure before stopping. -/
def emptyDataError : FailMsg := ⟨false, true⟩

/-- The observable steps of one fetchHealthDataWithRetry run. -/
inductive FetchEvent where
  | attempt (i : ℕ)
  | disconnect
  | reconnect
  | waitMs (ms : ℕ)
  deriving Repr, DecidableEq

/-- The number of fetch attempts recorded in a trace. -/
def attemptCount (trace : List FetchEvent) : ℕ :=
  (trace.filter (fun e => match e with | .attempt _ => true | _ => false)).length

/-- fetchHealthDataWithRetry: up to DATA_RETRY_ATTEMPTS attempts, each
modelled by an oracle outcome.  A failure whose message matches the locked or
empty-payload patterns stops the loop at once; any other failure on a
non-final attempt triggers recovery (disconnect, wait RECOVERY_DELAY_MS,
reconnect) followed by a wait of RECOVERY_DELAY_MS times the 1-based index of
the failed attempt.  Returns the outcome and the event trace. -/
def fetchHealthDataWithRetry (outcomes : ℕ → Except FailMsg Unit) (attempt : ℕ)
    (lastError : Option FailMsg) (trace : List FetchEvent) :
    Except FailMsg Unit × List FetchEvent :=
  if h : attempt < DATA_RETRY_ATTEMPTS then
    let tr := trace ++ [.attempt attempt]
    match outcomes attempt with
    | .ok u => (.ok u, tr)
    | .error e =>
      if e.lockedMsg then (.error e, tr)
      else if e.emptyMsg then (.error emptyDataError, tr)
      else if attempt = DATA_RETRY_ATTEMPTS - 1 then (.error e, tr)
      else
        fetchHealthDataWithRetry outcomes (attempt + 1) (some e)
          (tr ++ [.disconnect, .waitMs RECOVERY_DELAY_MS, .reconnect,
                  .waitMs (RECOVERY_DELAY_MS * (attempt + 1))])
  else
    (.error (lastError.getD ⟨false, false⟩), trace)
termination_by DATA_RETRY_ATTEMPTS - attempt
decreasing_by
  omega

/-! The Sync Orchestrator: error classification effects on the consecutive
error counter, the cooldown gate of performSafeSync, and the success reset. -/

/-- MAX_CONSECUTIVE_ERRORS. -/
def MAX_CONSECUTIVE_ERRORS : ℕ := 3

/-- ERROR_COOLDOWN_MS: five minutes. -/
def ERROR_COOLDOWN_MS : ℚ := 5 * 60 * 1000

/-- The classification flags produced by AutoSyncService.classifyError for a
failure message. -/
structure SyncErrorFlags where
  isBluetooth : Bool
  isTimeout : Bool
  isNullPointer : Bool
  isConnection : Bool
  isLocked : Bool
  isEmptyData : Bool
  deriving Repr, DecidableEq

/-- The classification of a plain timeout message ("Operation timeout ..."):
only the timeout flag is set. -/
def timeoutFlags : SyncErrorFlags := ⟨false, true, false, false, false, false⟩

/-- The orchestrator state touched by error handling: the consecutive error
counter, the last error time, and the device-sync busy flag. -/
structure AutoSyncState where
  consecutiveErrorCount : ℕ
  lastErrorTime : Option ℚ
  isDeviceSyncRunning : Bool
  deriving Repr, DecidableEq

/-- AutoSyncService.handleDeviceSyncError: the branch ladder of the source,
in order - locked, empty data, bluetooth, connection, null pointer, timeout,
generic - updating the counter, the last error time and the busy flag
exactly as each branch does. -/
def handleDeviceSyncError (st : AutoSyncState) (f : SyncErrorFlags) (now : ℚ) :
    AutoSyncState :=
  if f.isLocked then
    { consecutiveErrorCount := MAX_CONSECUTIVE_ERRORS, lastErrorTime := some now
      isDeviceSyncRunning := false }
  else if f.isEmptyData then
    { consecutiveErrorCount := MAX_CONSECUTIVE_ERRORS, lastErrorTime := some now
      isDeviceSyncRunning := false }
  else if f.isBluetooth then
    { st with isDeviceSyncRunning := false }
  else if f.isConnection then
    if 2 ≤ st.consecutiveErrorCount then
      { st with lastErrorTime := some now, isDeviceSyncRunning := false }
    else
      { st with
        consecutiveErrorCount :=
          if st.consecutiveErrorCount < 3 then st.consecutiveErrorCount + 1
          else st.consecutiveErrorCount
        lastErrorTime := some now, isDeviceSyncRunning := false }
  else if f.isNullPointer then
    if 1 ≤ st.consecutiveErrorCount then
      { st with lastErrorTime := some now, isDeviceSyncRunning := false }
    else
      { st with
        consecutiveErrorCount :=
          if st.consecutiveErrorCount < 2 then st.consecutiveErrorCount + 1
          else st.consecutiveErrorCount
        lastErrorTime := some now, isDeviceSyncRunning := false }
  else if f.isTimeout then
    if 2 ≤ st.consecutiveErrorCount then
      { st with lastErrorTime := some now, isDeviceSyncRunning := false }
    else
      { st with
        consecutiveErrorCount :=
          if st.consecutiveErrorCount < 1 then st.consecutiveErrorCount + 1
          else st.consecutiveErrorCount
        lastErrorTime := some now }
  else
    if MAX_CONSECUTIVE_ERRORS ≤ st.consecutiveErrorCount then
      { st with lastErrorTime := some now, isDeviceSyncRunning := false }
    else
      { st with
        consecutiveErrorCount := st.consecutiveErrorCount + 1
        lastErrorTime := some now }

/-- The error-cooldown gate of AutoSyncService.performSafeSync: a manual sync
skips the check; otherwise, with the counter at MAX_CONSECUTIVE_ERRORS or
above, the tick is skipped entirely while the time since the last error is
below ERROR_COOLDOWN_MS, and past the window the counter and error time are
reset.  Returns (skipped, new state). -/
def performSafeSyncGuard (st : AutoSyncState) (now : ℚ) (isManualSync : Bool) :
    Bool × AutoSyncState :=
  if isManualSync then (false, st)
  else if MAX_CONSECUTIVE_ERRORS ≤ st.consecutiveErrorCount then
    let timeSinceLastError :=
      match st.lastErrorTime with
      | some t => now - t
      | none => 0
    if timeSinceLastError < ERROR_COOLDOWN_MS then (true, st)
    else (false, { st with consecutiveErrorCount := 0, lastErrorTime := none })
  else (false, st)

/-- The success path of AutoSyncService.runDeviceSync (and runOSSync): any
sync success resets the consecutive error counter and clears the last error
time. -/
def deviceSyncSuccess (st : AutoSyncState) : AutoSyncState :=
  { st with consecutiveErrorCount := 0, lastErrorTime := none }

/-! The connection coordinator lock discipline of connectDevice. -/

/-- The process-wide connection lock state: the connecting flag and the
connection-attempt set. -/
structure ConnState where
  isConnecting : Bool
  connectionAttempts : Finset String
  deriving DecidableEq

/-- The sub-operation outcomes of one connectDevice call: the two early
already-connected probes, whether a stored device with a different uuid was
found, and the outcome of the platform connect body (a returned boolean or a
thrown error). -/
structure ConnectOracle where
  alreadyConnected : Bool
  storedUuidDiffers : Bool
  secondCheckConnected : Bool
  body : Except Unit Bool

/-- The uuid sanitizer of DeviceConnectionService (cleanUuid). -/
def cleanUuid (uuid : String) : String := asciiTrim uuid

/-- DeviceConnectionService.connectDevice, reduced to its lock discipline:
the invalid-uuid early return, the stale-attempt cleanup, the two
already-connected early returns (skipped when skipPreConnectionCheck is set),
then the guarded body under the try/finally that always clears the connecting
flag and removes the uuid from the attempt set. -/
def connectDevice (o : ConnectOracle) (st : ConnState) (uuid : String)
    (skipPreConnectionCheck : Bool) : Bool × ConnState :=
  let clean := cleanUuid uuid
  if clean = "" then (false, st)
  else
    let st1 :=
      if clean ∈ st.connectionAttempts then
        { st with connectionAttempts := st.connectionAttempts.erase clean }
      else st
    if skipPreConnectionCheck = false ∧ o.alreadyConnected then
      (true, { st1 with connectionAttempts := st1.connectionAttempts.erase clean })
    else
      let st2 := { st1 with connectionAttempts := insert clean st1.connectionAttempts }
      if skipPreConnectionCheck = false ∧ o.storedUuidDiffers ∧ o.secondCheckConnected then
        (true, { st2 with connectionAttempts := st2.connectionAttempts.erase clean })
      else
        let result :=
          match o.body with
          | .ok b => b
          | .error _ => false
        (result,
          { isConnecting := false, connectionAttempts := st2.connectionAttempts.erase clean })

/-! Supporting lemmas for the normalization theorems. -/

lemma processStepsData_steps_zero (hc : HealthCalc) (day : DayRange) (arr : List Rec)
    (h : (processStepsData hc day arr).steps = 0) :
    (processStepsData hc day arr).calories = 0 := by
  unfold processStepsData at h ⊢
  by_cases h1 : arr.isEmpty = true
  · simp [h1]
  · rw [if_neg h1] at h ⊢
    by_cases h2 : (filterStepRecords arr).isEmpty = true
    · simp [h2]
    · rw [if_neg h2] at h ⊢
      simp only at h ⊢
      simp [h]

lemma extractDataArray_setCombinedData (raw : RawData) (arr : List Rec) (p : String)
    (h : p ≠ "combinedData") :
    extractDataArray (setCombinedData raw arr) p = extractDataArray raw p := by
  unfold setCombinedData
  rw [extractDataArray]
  rw [if_neg]
  exact fun hh => h hh.symm

/-- The data-path discipline of the Field Mapping Table used by the
consistency proofs: the calories entry reads the same array as the steps
entry, and no entry reads the combined stream path. -/
def mappingPathsOk (m : DeviceFieldMapping) : Prop :=
  m.calories.dataPath = m.steps.dataPath ∧
  m.heartRate.dataPath ≠ "combinedData" ∧
  m.spo2.dataPath ≠ "combinedData" ∧
  m.steps.dataPath ≠ "combinedData" ∧
  m.calories.dataPath ≠ "combinedData" ∧
  m.distance.dataPath ≠ "combinedData" ∧
  m.sleep.dataPath ≠ "combinedData" ∧
  m.bloodPressure.dataPath ≠ "combinedData" ∧
  m.temperature.dataPath ≠ "combinedData" ∧
  m.battery.dataPath ≠ "combinedData"

instance (m : DeviceFieldMapping) : Decidable (mappingPathsOk m) := by
  unfold mappingPathsOk
  infer_instance

lemma DEVICE_MAPPINGS_mem (k : String) (m : DeviceFieldMapping)
    (h : DEVICE_MAPPINGS k = some m) :
    m = mappingYC ∨ m = mappingRW ∨ m = mappingAndroidYC ∨ m = mappingIosYC ∨
      m = mappingDefault := by
  unfold DEVICE_MAPPINGS at h
  split_ifs at h <;> simp_all

lemma lookupMappingFallback_mem (n : String) :
    lookupMappingFallback n = mappingYC ∨ lookupMappingFallback n = mappingRW ∨
      lookupMappingFallback n = mappingAndroidYC ∨ lookupMappingFallback n = mappingIosYC ∨
      lookupMappingFallback n = mappingDefault := by
  unfold lookupMappingFallback
  split
  · next m hm => exact DEVICE_MAPPINGS_mem _ _ hm
  · right; right; right; right; rfl

lemma getDeviceMapping_mem (hp dt : String) :
    getDeviceMapping hp dt = mappingYC ∨ getDeviceMapping hp dt = mappingRW ∨
      getDeviceMapping hp dt = mappingAndroidYC ∨ getDeviceMapping hp dt = mappingIosYC ∨
      getDeviceMapping hp dt = mappingDefault := by
  unfold getDeviceMapping
  split_ifs
  · split
    · next m hm => exact DEVICE_MAPPINGS_mem _ _ hm
    · exact lookupMappingFallback_mem _
  · split
    · next m hm => exact DEVICE_MAPPINGS_mem _ _ hm
    · exact lookupMappingFallback_mem _
  · exact lookupMappingFallback_mem _

lemma mappingPathsOk_getDeviceMapping (hp dt : String) :
    mappingPathsOk (getDeviceMapping hp dt) := by
  rcases getDeviceMapping_mem hp dt with h | h | h | h | h <;> rw [h] <;> decide

lemma mappingPathsOk_applyPlatformAdjustments (m : DeviceFieldMapping) (p : String)
    (h : mappingPathsOk m) : mappingPathsOk (applyPlatformAdjustments m p) := by
  unfold applyPlatformAdjustments
  split_ifs <;> simpa [mappingPathsOk] using h

lemma nonEmptyArr_some_iff (o : Option (List Rec)) (arr : List Rec) :
    nonEmptyArr o = some arr ↔ o = some arr ∧ arr.isEmpty = false := by
  rcases o with _ | l
  · simp [nonEmptyArr]
  · simp only [nonEmptyArr, Option.some.injEq]
    by_cases hl : l.isEmpty = true
    · rw [if_pos hl]
      constructor
      · intro h
        exact absurd h (by simp)
      · rintro ⟨rfl, h2⟩
        rw [hl] at h2
        exact absurd h2 (by simp)
    · rw [if_neg hl]
      simp only [Option.some.injEq]
      constructor
      · rintro rfl
        exact ⟨rfl, by simpa using hl⟩
      · rintro ⟨rfl, _⟩
        rfl

lemma normalizeStepsMetric_android (raw : RawData) (cfg : FieldMapping) (dt : String)
    (hc : HealthCalc) (day : DayRange) (now : ℚ) :
    normalizeStepsMetric raw cfg dt "android" hc day now =
      normalizeStepsMetricAndroid raw cfg dt hc day now := by
  simp [normalizeStepsMetric]

lemma normalizeStepsMetric_notAndroid (raw : RawData) (cfg : FieldMapping) (dt p : String)
    (hc : HealthCalc) (day : DayRange) (now : ℚ) (h : p ≠ "android") :
    normalizeStepsMetric raw cfg dt p hc day now =
      (normalizeStepsMetricIOS raw cfg dt hc day now, raw) := by
  simp [normalizeStepsMetric, h]

lemma normalizeStepsMetricAndroid_some (raw : RawData) (cfg : FieldMapping) (dt : String)
    (hc : HealthCalc) (day : DayRange) (now : ℚ) (arr : List Rec)
    (h : nonEmptyArr (extractDataArray raw cfg.dataPath) = some arr) :
    normalizeStepsMetricAndroid raw cfg dt hc day now =
      (some ⟨(if isYCDevice dt = true then processYCStepsData hc day arr
              else processRWStepsData hc day arr).steps, now⟩,
       if isCombinedStepData arr = true then setCombinedData raw arr else raw) := by
  unfold normalizeStepsMetricAndroid
  rw [h]

lemma normalizeStepsMetricIOS_some (raw : RawData) (cfg : FieldMapping) (dt : String)
    (hc : HealthCalc) (day : DayRange) (now : ℚ) (arr : List Rec)
    (h : nonEmptyArr (extractDataArray raw cfg.dataPath) = some arr) :
    normalizeStepsMetricIOS raw cfg dt hc day now =
      some ⟨(if isYCDevice dt = true then processYCStepsData hc day arr
             else processRWStepsData hc day arr).steps, now⟩ := by
  unfold normalizeStepsMetricIOS
  rw [h]

lemma normalizeCaloriesMetric_some (raw : RawData) (cfg : FieldMapping) (dt : String)
    (hc : HealthCalc) (day : DayRange) (arr : List Rec)
    (h : nonEmptyArr (extractDataArray raw cfg.dataPath) = some arr) :
    normalizeCaloriesMetric raw cfg dt hc day =
      some (if (if isYCDevice dt = true then processYCStepsData hc day arr
                else processRWStepsData hc day arr).steps = 0 then 0
            else (if isYCDevice dt = true then processYCStepsData hc day arr
                  else processRWStepsData hc day arr).calories) := by
  unfold normalizeCaloriesMetric
  rw [h]

lemma normalizeHealthData_steps_proj (raw : RawData) (dt p hp : String) (hc : HealthCalc)
    (day : DayRange) (now : ℚ) :
    (normalizeHealthData (some raw) dt p hp hc day now).1.steps =
      (normalizeStepsMetric raw (applyPlatformAdjustments (getDeviceMapping hp dt) p).steps
        dt p hc day now).1 := by
  simp [normalizeHealthData]

lemma normalizeHealthData_calories_proj (raw : RawData) (dt p hp : String) (hc : HealthCalc)
    (day : DayRange) (now : ℚ) :
    (normalizeHealthData (some raw) dt p hp hc day now).1.calories =
      normalizeCaloriesMetric
        (normalizeStepsMetric raw (applyPlatformAdjustments (getDeviceMapping hp dt) p).steps
          dt p hc day now).2
        (applyPlatformAdjustments (getDeviceMapping hp dt) p).calories dt hc day := by
  simp [normalizeHealthData]

/-- C1: for every normalized record produced by the Normalization Engine, if
the steps total of the record is 0 then the calories metric is 0, regardless
of any calorie values present in the raw payload: the calories normalizer
forces its value to 0 whenever the summed step count over the current-day
step records is 0. -/
theorem steps_zero_forces_calories_zero
    (raw : RawData) (deviceType platform hostPlatform : String) (hc : HealthCalc)
    (day : DayRange) (now : ℚ) (s : MetricSlot)
    (hsteps : (normalizeHealthData (some raw) deviceType platform hostPlatform hc day now).1.steps
      = some s)
    (hzero : s.current = 0) :
    (normalizeHealthData (some raw) deviceType platform hostPlatform hc day now).1.calories
      = some 0 := by
  have hok := mappingPathsOk_applyPlatformAdjustments
    (getDeviceMapping hostPlatform deviceType) platform
    (mappingPathsOk_getDeviceMapping hostPlatform deviceType)
  rw [normalizeHealthData_steps_proj] at hsteps
  rw [normalizeHealthData_calories_proj]
  set m := applyPlatformAdjustments (getDeviceMapping hostPlatform deviceType) platform with hm
  obtain ⟨hcs, _, _, hsp, _⟩ := hok
  by_cases hplat : platform = "android"
  · subst hplat
    rw [normalizeStepsMetric_android] at hsteps ⊢
    rcases harr : nonEmptyArr (extractDataArray raw m.steps.dataPath) with _ | arr
    · unfold normalizeStepsMetricAndroid at hsteps
      rw [harr] at hsteps
      simp at hsteps
    · obtain ⟨hx, hne⟩ := (nonEmptyArr_some_iff _ _).mp harr
      rw [normalizeStepsMetricAndroid_some raw m.steps deviceType hc day now arr harr]
        at hsteps ⊢
      simp only [Option.some.injEq] at hsteps
      have hstep0 : (if isYCDevice deviceType = true then processYCStepsData hc day arr
          else processRWStepsData hc day arr).steps = 0 := by
        rw [← hsteps] at hzero
        exact hzero
      have hpath : nonEmptyArr (extractDataArray
          (if isCombinedStepData arr = true then setCombinedData raw arr else raw)
          m.calories.dataPath) = some arr := by
        rw [nonEmptyArr_some_iff]
        refine ⟨?_, hne⟩
        rw [hcs]
        by_cases hcomb : isCombinedStepData arr = true
        · rw [if_pos hcomb, extractDataArray_setCombinedData raw arr _ hsp, hx]
        · rw [if_neg hcomb, hx]
      rw [normalizeCaloriesMetric_some _ m.calories deviceType hc day arr hpath]
      rw [if_pos hstep0]
  · rw [normalizeStepsMetric_notAndroid raw m.steps deviceType platform hc day now hplat]
      at hsteps ⊢
    simp only at hsteps ⊢
    rcases harr : nonEmptyArr (extractDataArray raw m.steps.dataPath) with _ | arr
    · unfold normalizeStepsMetricIOS at hsteps
      rw [harr] at hsteps
      simp at hsteps
    · obtain ⟨hx, hne⟩ := (nonEmptyArr_some_iff _ _).mp harr
      rw [normalizeStepsMetricIOS_some raw m.steps deviceType hc day now arr harr] at hsteps
      simp only [Option.some.injEq] at hsteps
      have hstep0 : (if isYCDevice deviceType = true then processYCStepsData hc day arr
          else processRWStepsData hc day arr).steps = 0 := by
        rw [← hsteps] at hzero
        exact hzero
      have hpath : nonEmptyArr (extractDataArray raw m.calories.dataPath) = some arr := by
        rw [nonEmptyArr_some_iff]
        exact ⟨by rw [hcs, hx], hne⟩
      rw [normalizeCaloriesMetric_some _ m.calories deviceType hc day arr hpath]
      rw [if_pos hstep0]

/-- The raw payload of Scenario A: a step array whose only record reports 0
steps, next to a calorie array reporting 500. -/
def rawScenarioA : RawData := [("steps", [[("value", 0)]]), ("calories", [[("value", 500)]])]

/-- A concrete HealthCalculator instance for witnesses. -/
def hcZero : HealthCalc := ⟨fun _ => 0, fun _ => 0⟩

/-- A concrete current-day range for witnesses. -/
def dayScenarioA : DayRange := ⟨0, 100000000000000⟩

/-- C1 witness (Scenario A): the concrete payload normalizes to a steps slot
of 0, and the theorem forces its calories metric to 0 even though the raw
payload carries 500 calories. -/
theorem steps_zero_forces_calories_zero_witness :
    (normalizeHealthData (some rawScenarioA) "rw" "ios" "ios" hcZero dayScenarioA 5).1.steps
      = some ⟨0, 5⟩ ∧
    (normalizeHealthData (some rawScenarioA) "rw" "ios" "ios" hcZero dayScenarioA 5).1.calories
      = some 0 :=
  ⟨by decide, steps_zero_forces_calories_zero rawScenarioA "rw" "ios" "ios" hcZero dayScenarioA 5
    ⟨0, 5⟩ (by decide) rfl⟩
/-- C2: the sleep aggregate never reports more than 1440 minutes; whenever
the rounded minute total of the in-day sessions exceeds 1440, each of the
three stage components is scaled by the ratio 1440 / total and the reported
total is exactly 1440. -/
theorem sleep_total_capped_and_scaled (raw : RawData) (cfg : SleepMapping) (day : DayRange)
    (now : ℚ) :
    (∀ s, normalizeSleepMetric raw cfg day now = some s → s.totalMinutes ≤ 1440) ∧
    (∀ arr dS lS rS,
      nonEmptyArr (extractDataArray raw cfg.dataPath) = some arr →
      dS = totalDeepSeconds cfg (currentDaySleepSessions cfg day arr) →
      lS = totalLightSeconds cfg (currentDaySleepSessions cfg day arr) →
      rS = totalRemSeconds cfg (currentDaySleepSessions cfg day arr) →
      (1440 : ℚ) < (jsRound ((dS + lS + rS) / 60) : ℚ) →
      normalizeSleepMetric raw cfg day now = some
        { totalMinutes := 1440
          deepSleepMinutes :=
            (jsRound ((dS / 60) * (1440 / (jsRound ((dS + lS + rS) / 60) : ℚ))) : ℚ)
          lightSleepMinutes :=
            (jsRound ((lS / 60) * (1440 / (jsRound ((dS + lS + rS) / 60) : ℚ))) : ℚ)
          remSleepMinutes :=
            (jsRound ((rS / 60) * (1440 / (jsRound ((dS + lS + rS) / 60) : ℚ))) : ℚ)
          totalSleepSeconds :=
            (jsRound ((dS + lS + rS) * (1440 / (jsRound ((dS + lS + rS) / 60) : ℚ))) : ℚ)
          totalDeepSleepSeconds := dS
          totalLightSleepSeconds := lS
          totalRemSleepSeconds := rS
          timestamp :=
            if latestSleepEndTime (currentDaySleepSessions cfg day arr) ≠ 0 then
              latestSleepEndTime (currentDaySleepSessions cfg day arr)
            else now }) := by
  constructor
  · intro s h
    unfold normalizeSleepMetric at h
    split at h
    · simp only [Option.some.injEq] at h
      rw [← h]
      norm_num [createEmptySleepData]
    · simp only at h
      split_ifs at h with h1 h2 h3 h4 h5
      all_goals simp only [Option.some.injEq] at h
      all_goals rw [← h]
      all_goals try norm_num [createEmptySleepData]
      all_goals try norm_num [MAX_SLEEP_MINUTES]
      all_goals try norm_num [MAX_SLEEP_MINUTES] at h2
      all_goals linarith
  · intro arr dS lS rS harr hdS hlS hrS hlt
    subst hdS
    subst hlS
    subst hrS
    unfold normalizeSleepMetric
    rw [harr]
    have hne : (currentDaySleepSessions cfg day arr).isEmpty = false := by
      by_contra hcon
      rw [Bool.not_eq_false, List.isEmpty_iff] at hcon
      rw [hcon] at hlt
      norm_num [totalDeepSeconds, totalLightSeconds, totalRemSeconds, jsRound] at hlt
    have hmax : MAX_SLEEP_MINUTES <
        ((jsRound ((totalDeepSeconds cfg (currentDaySleepSessions cfg day arr) +
          totalLightSeconds cfg (currentDaySleepSessions cfg day arr) +
          totalRemSeconds cfg (currentDaySleepSessions cfg day arr)) / 60) : ℤ) : ℚ) := by
      calc MAX_SLEEP_MINUTES = 1440 := by norm_num [MAX_SLEEP_MINUTES]
      _ < _ := hlt
    simp only
    split_ifs with h1 h2 h3
    all_goals try simp [h1] at hne
    all_goals norm_num [MAX_SLEEP_MINUTES]

/-- The single in-day sleep session of Scenario D: deep 600, light 700 and
REM 200 minutes, in seconds. -/
def sleepSessionD : Rec :=
  [("time", 5000), ("deepSleepSeconds", 36000), ("lightSleepSeconds", 42000),
   ("remSleepSeconds", 12000)]

/-- The raw payload of Scenario D. -/
def rawScenarioD : RawData := [("sleep", [sleepSessionD])]

/-- C2 witness (Scenario D): 1500 minutes of sleep are scaled by 1440/1500 to
deep 576, light 672, REM 192, with the reported total exactly 1440. -/
theorem sleep_total_capped_and_scaled_witness :
    normalizeSleepMetric rawScenarioD mappingYC.sleep dayScenarioA 7 =
      some ⟨1440, 576, 672, 192, 86400, 36000, 42000, 12000, 7⟩ := by
  have e1 : currentDaySleepSessions mappingYC.sleep dayScenarioA [sleepSessionD] =
      [sleepSessionD] := by
    simp [currentDaySleepSessions, sleepSessionStartMs, extractTimestampDV, firstTruthy,
      getField, mappingYC, dayScenarioA, sleepSessionD, List.filter_cons]
    all_goals norm_num
  have e2 : totalDeepSeconds mappingYC.sleep [sleepSessionD] = 36000 := by
    simp [totalDeepSeconds, sleepComponentSeconds, extractBestValue, getField, truthy,
      mappingYC, sleepSessionD]
  have e3 : totalLightSeconds mappingYC.sleep [sleepSessionD] = 42000 := by
    simp [totalLightSeconds, sleepComponentSeconds, extractBestValue, getField, truthy,
      mappingYC, sleepSessionD]
  have e4 : totalRemSeconds mappingYC.sleep [sleepSessionD] = 12000 := by
    simp [totalRemSeconds, sleepComponentSeconds, extractBestValue, getField, truthy,
      mappingYC, sleepSessionD]
  have e5 : latestSleepEndTime [sleepSessionD] = 0 := by
    simp [latestSleepEndTime, firstTruthy, getField, sleepSessionD]
  have h := (sleep_total_capped_and_scaled rawScenarioD mappingYC.sleep dayScenarioA 7).2
    [sleepSessionD] 36000 42000 12000
    (by simp [nonEmptyArr, extractDataArray, rawScenarioD, mappingYC])
    (by rw [e1, e2])
    (by rw [e1, e3])
    (by rw [e1, e4])
    (by norm_num [jsRound])
  rw [h, e1, e5]
  norm_num [jsRound]


/-- The best-so-far invariant of the blood-pressure fold: either no record in
the list beats the accumulator and the fold returns it unchanged, or the fold
returns the data of a qualifying record with the maximal timestamp. -/
lemma bpFold_spec (config : BPMapping) (l : List Rec) (acc : ℚ × ℚ × ℚ) :
    (l.foldl (bloodPressureStep config) acc = acc ∧
      ∀ r ∈ l, 0 < bpSystolic config r → 0 < bpDiastolic config r →
        bpTimestamp config r ≤ acc.1) ∨
    (∃ r ∈ l, (0 < bpSystolic config r ∧ 0 < bpDiastolic config r) ∧
      l.foldl (bloodPressureStep config) acc =
        (bpTimestamp config r, bpSystolic config r, bpDiastolic config r) ∧
      acc.1 < bpTimestamp config r ∧
      ∀ r2 ∈ l, 0 < bpSystolic config r2 → 0 < bpDiastolic config r2 →
        bpTimestamp config r2 ≤ bpTimestamp config r) := by
  induction l generalizing acc with
  | nil =>
    left
    simp
  | cons rh t ih =>
    by_cases hcond : 0 < bpSystolic config rh ∧ 0 < bpDiastolic config rh ∧
        acc.1 < bpTimestamp config rh
    · have hstep : bloodPressureStep config acc rh =
          (bpTimestamp config rh, bpSystolic config rh, bpDiastolic config rh) := by
        unfold bloodPressureStep
        rw [if_pos hcond]
      rcases ih (bpTimestamp config rh, bpSystolic config rh, bpDiastolic config rh) with
        ⟨hf, hb⟩ | ⟨r, hr, hq, hf, hgt, hb⟩
      · right
        refine ⟨rh, by simp, ⟨hcond.1, hcond.2.1⟩, ?_, hcond.2.2, ?_⟩
        · rw [List.foldl_cons, hstep, hf]
        · intro r2 hr2 hq1 hq2
          rcases List.mem_cons.mp hr2 with rfl | hr2
          · exact le_refl _
          · exact hb r2 hr2 hq1 hq2
      · right
        refine ⟨r, List.mem_cons_of_mem _ hr, hq, ?_, lt_trans hcond.2.2 hgt, ?_⟩
        · rw [List.foldl_cons, hstep, hf]
        · intro r2 hr2 hq1 hq2
          rcases List.mem_cons.mp hr2 with rfl | hr2
          · exact le_of_lt hgt
          · exact hb r2 hr2 hq1 hq2
    · have hstep : bloodPressureStep config acc rh = acc := by
        unfold bloodPressureStep
        rw [if_neg hcond]
      rcases ih acc with ⟨hf, hb⟩ | ⟨r, hr, hq, hf, hgt, hb⟩
      · left
        constructor
        · rw [List.foldl_cons, hstep, hf]
        · intro r2 hr2 hq1 hq2
          rcases List.mem_cons.mp hr2 with rfl | hr2
          · have hnot : ¬ acc.1 < bpTimestamp config r2 := fun hlt => hcond ⟨hq1, hq2, hlt⟩
            exact not_lt.mp hnot
          · exact hb r2 hr2 hq1 hq2
      · right
        refine ⟨r, List.mem_cons_of_mem _ hr, hq, ?_, hgt, ?_⟩
        · rw [List.foldl_cons, hstep, hf]
        · intro r2 hr2 hq1 hq2
          rcases List.mem_cons.mp hr2 with rfl | hr2
          · have hnot : ¬ acc.1 < bpTimestamp config r2 := fun hlt => hcond ⟨hq1, hq2, hlt⟩
            exact le_of_lt (lt_of_le_of_lt (not_lt.mp hnot) hgt)
          · exact hb r2 hr2 hq1 hq2


/-- C5 (amended): without any current-day filtering, the blood-pressure
normalizer keeps, among all records of the mapped array, a record with the
latest timestamp whose systolic reading lies in (50, 300) and whose diastolic
reading lies in (30, 200) and whose timestamp is positive, and returns null
exactly when no record qualifies. -/
theorem bp_latest_plausible_selection (raw : RawData) (config : BPMapping) (arr : List Rec)
    (harr : nonEmptyArr (extractDataArray raw config.dataPath) = some arr) :
    (normalizeBloodPressureMetric raw config = none ↔
      ∀ r ∈ arr, ¬(0 < bpSystolic config r ∧ 0 < bpDiastolic config r ∧
        0 < bpTimestamp config r)) ∧
    (∀ s, normalizeBloodPressureMetric raw config = some s →
      ∃ r ∈ arr, (0 < bpSystolic config r ∧ 0 < bpDiastolic config r ∧
          0 < bpTimestamp config r) ∧
        s.systolic = bpSystolic config r ∧ s.diastolic = bpDiastolic config r ∧
        s.timestamp = bpTimestamp config r ∧
        ∀ r2 ∈ arr, 0 < bpSystolic config r2 → 0 < bpDiastolic config r2 →
          bpTimestamp config r2 ≤ bpTimestamp config r) := by
  unfold normalizeBloodPressureMetric
  rw [harr]
  simp only
  rcases bpFold_spec config arr (0, 0, 0) with ⟨hf, hb⟩ | ⟨r, hr, hq, hf, hgt, hb⟩
  · rw [hf]
    constructor
    · constructor
      · intro _ r hrmem ⟨hq1, hq2, hq3⟩
        exact absurd (hb r hrmem hq1 hq2) (not_le.mpr hq3)
      · intro _
        rw [if_neg]
        rintro ⟨h1, _⟩
        exact absurd h1 (by norm_num)
    · intro s hs
      rw [if_neg] at hs
      · exact absurd hs (by simp)
      · rintro ⟨h1, _⟩
        exact absurd h1 (by norm_num)
  · rw [hf]
    rw [if_pos ⟨hq.1, hq.2⟩]
    constructor
    · constructor
      · intro hcon
        exact absurd hcon (by simp)
      · intro hall
        exact absurd ⟨hq.1, hq.2, hgt⟩ (hall r hr)
    · intro s hs
      simp only [Option.some.injEq] at hs
      refine ⟨r, hr, ⟨hq.1, hq.2, hgt⟩, ?_, ?_, ?_, hb⟩
      · rw [← hs]
      · rw [← hs]
      · rw [← hs]


/-- The blood-pressure selection as the claim words it: records whose
timestamp falls outside the current local calendar day are discarded before
the latest-plausible selection runs.  This definition follows the claim, not
the source, and is compared against the source normalizer. -/
def bloodPressureClaimSelect (raw : RawData) (config : BPMapping) (day : DayRange) :
    Option BPSlot :=
  match nonEmptyArr (extractDataArray raw config.dataPath) with
  | none => none
  | some dataArray =>
    let inDay := dataArray.filter (fun r =>
      decide (day.dayStart ≤ bpTimestamp config r) && decide (bpTimestamp config r ≤ day.dayEnd))
    let best := inDay.foldl (bloodPressureStep config) (0, 0, 0)
    if 0 < best.2.1 ∧ 0 < best.2.2 then some ⟨best.2.1, best.2.2, best.1⟩ else none

/-- A plausible blood-pressure record timestamped outside the current day. -/
def bpRecordOutOfDay : Rec := [("time", 1), ("systolic", 120), ("diastolic", 80)]

/-- A raw payload whose only blood-pressure record lies outside the day. -/
def rawScenarioBP : RawData := [("bloodPressure", [bpRecordOutOfDay])]

/-- A current-day range that excludes the record above. -/
def dayScenarioBP : DayRange := ⟨1000, 2000⟩

/-- C5 counterexample: the claim (with its current-day discard) yields null
on a payload whose only plausible record is outside the day, but the source
normalizer keeps that record: no day filtering happens in the code. -/
theorem bp_day_filter_counterexample :
    bloodPressureClaimSelect rawScenarioBP mappingYC.bloodPressure dayScenarioBP = none ∧
    normalizeBloodPressureMetric rawScenarioBP mappingYC.bloodPressure = some ⟨120, 80, 1⟩ := by
  have ht : bpTimestamp mappingYC.bloodPressure bpRecordOutOfDay = 1 := by
    simp [bpTimestamp, extractTimestampDV, firstTruthy, getField, mappingYC, bpRecordOutOfDay]
  have hs : bpSystolic mappingYC.bloodPressure bpRecordOutOfDay = 120 := by
    simp [bpSystolic, extractBestValue, getField, mappingYC, bpRecordOutOfDay]
    norm_num
  have hd : bpDiastolic mappingYC.bloodPressure bpRecordOutOfDay = 80 := by
    simp [bpDiastolic, extractBestValue, getField, mappingYC, bpRecordOutOfDay]
    norm_num
  have harr : nonEmptyArr (extractDataArray rawScenarioBP mappingYC.bloodPressure.dataPath) =
      some [bpRecordOutOfDay] := by
    simp [nonEmptyArr, extractDataArray, rawScenarioBP, mappingYC]
  constructor
  · unfold bloodPressureClaimSelect
    rw [harr]
    simp only [List.filter_cons, List.filter_nil, ht, dayScenarioBP]
    norm_num
  · unfold normalizeBloodPressureMetric
    rw [harr]
    simp only [List.foldl_cons, List.foldl_nil, bloodPressureStep, ht, hs, hd]
    norm_num


/-- A blood-pressure record carrying only a systolic value. -/
def bpRecordNoDiastolic : Rec := [("systolic", 120)]

/-- The payload holding only that record. -/
def rawScenarioBPNone : RawData := [("bloodPressure", [bpRecordNoDiastolic])]

/-- C5 witness for the amended selection: a record with no diastolic reading
never qualifies, so the metric is null. -/
theorem bp_latest_plausible_selection_witness :
    normalizeBloodPressureMetric rawScenarioBPNone mappingYC.bloodPressure = none := by
  have h := (bp_latest_plausible_selection rawScenarioBPNone mappingYC.bloodPressure
    [bpRecordNoDiastolic]
    (by simp [nonEmptyArr, extractDataArray, rawScenarioBPNone, mappingYC])).1
  refine h.mpr ?_
  intro r hr
  simp only [List.mem_singleton] at hr
  subst hr
  rintro ⟨_, hdia, _⟩
  have hz : bpDiastolic mappingYC.bloodPressure bpRecordNoDiastolic = 0 := by
    simp [bpDiastolic, extractBestValue, getField, mappingYC, bpRecordNoDiastolic]
  rw [hz] at hdia
  exact absurd hdia (by norm_num)


lemma attemptCount_append (a b : List FetchEvent) :
    attemptCount (a ++ b) = attemptCount a + attemptCount b := by
  simp [attemptCount, List.filter_append]

lemma fetch_attempts_le (outcomes : ℕ → Except FailMsg Unit) :
    ∀ k a le tr, DATA_RETRY_ATTEMPTS - a ≤ k →
      attemptCount (fetchHealthDataWithRetry outcomes a le tr).2 ≤
        attemptCount tr + (DATA_RETRY_ATTEMPTS - a) := by
  intro k
  induction k with
  | zero =>
    intro a le tr hk
    rw [fetchHealthDataWithRetry.eq_def]
    rw [dif_neg (by omega)]
    simp
  | succ n ihn =>
    intro a le tr hk
    by_cases ha : a < DATA_RETRY_ATTEMPTS
    · rw [fetchHealthDataWithRetry.eq_def, dif_pos ha]
      cases ho : outcomes a with
      | ok u =>
        simp only
        rw [attemptCount_append]
        have h1 : attemptCount [FetchEvent.attempt a] = 1 := by simp [attemptCount]
        omega
      | error e =>
        simp only
        split_ifs with hl he hlast
        · rw [attemptCount_append]
          have h1 : attemptCount [FetchEvent.attempt a] = 1 := by simp [attemptCount]
          omega
        · rw [attemptCount_append]
          have h1 : attemptCount [FetchEvent.attempt a] = 1 := by simp [attemptCount]
          omega
        · rw [attemptCount_append]
          have h1 : attemptCount [FetchEvent.attempt a] = 1 := by simp [attemptCount]
          omega
        · have step := ihn (a + 1) (some e)
            ((tr ++ [FetchEvent.attempt a]) ++
              [FetchEvent.disconnect, FetchEvent.waitMs RECOVERY_DELAY_MS, FetchEvent.reconnect,
               FetchEvent.waitMs (RECOVERY_DELAY_MS * (a + 1))]) (by omega)
          have htr : attemptCount
              ((tr ++ [FetchEvent.attempt a]) ++
                [FetchEvent.disconnect, FetchEvent.waitMs RECOVERY_DELAY_MS, FetchEvent.reconnect,
                 FetchEvent.waitMs (RECOVERY_DELAY_MS * (a + 1))]) = attemptCount tr + 1 := by
            rw [attemptCount_append, attemptCount_append]
            simp [attemptCount]
          rw [htr] at step
          calc attemptCount (fetchHealthDataWithRetry outcomes (a + 1) (some e)
              ((tr ++ [FetchEvent.attempt a]) ++
                [FetchEvent.disconnect, FetchEvent.waitMs RECOVERY_DELAY_MS, FetchEvent.reconnect,
                 FetchEvent.waitMs (RECOVERY_DELAY_MS * (a + 1))])).2 ≤
              attemptCount tr + 1 + (DATA_RETRY_ATTEMPTS - (a + 1)) := step
          _ ≤ attemptCount tr + (DATA_RETRY_ATTEMPTS - a) := by omega
    · rw [fetchHealthDataWithRetry.eq_def, dif_neg ha]
      simp

/-- C3: the health retrieval protocol makes at most DATA_RETRY_ATTEMPTS (3)
attempts; a failure classified as locked or empty-payload stops the loop at
once (the trace ends with that attempt, no recovery); any other failure on a
non-final attempt is followed by recovery (disconnect, wait, reconnect) and a
wait of RECOVERY_DELAY_MS times the 1-based index of the failed attempt
before the next attempt. -/
theorem fetch_retry_bounded_and_recovery (outcomes : ℕ → Except FailMsg Unit) :
    attemptCount (fetchHealthDataWithRetry outcomes 0 none []).2 ≤ DATA_RETRY_ATTEMPTS ∧
    (∀ a le tr e, a < DATA_RETRY_ATTEMPTS → outcomes a = .error e →
      (e.lockedMsg = true ∨ e.emptyMsg = true) →
      fetchHealthDataWithRetry outcomes a le tr =
        (Except.error (if e.lockedMsg then e else emptyDataError),
         tr ++ [FetchEvent.attempt a])) ∧
    (∀ a le tr e, a + 1 < DATA_RETRY_ATTEMPTS → outcomes a = .error e →
      e.lockedMsg = false → e.emptyMsg = false →
      fetchHealthDataWithRetry outcomes a le tr =
        fetchHealthDataWithRetry outcomes (a + 1) (some e)
          (tr ++ [FetchEvent.attempt a, FetchEvent.disconnect,
                  FetchEvent.waitMs RECOVERY_DELAY_MS, FetchEvent.reconnect,
                  FetchEvent.waitMs (RECOVERY_DELAY_MS * (a + 1))])) := by
  refine ⟨?_, ?_, ?_⟩
  · have h := fetch_attempts_le outcomes DATA_RETRY_ATTEMPTS 0 none [] (by omega)
    simpa [attemptCount] using h
  · intro a le tr e ha ho hstop
    rw [fetchHealthDataWithRetry.eq_def, dif_pos ha, ho]
    simp only
    by_cases hl : e.lockedMsg = true
    · rw [if_pos hl, if_pos hl]
    · rw [if_neg hl, if_pos (hstop.resolve_left hl), if_neg hl]
  · intro a le tr e ha ho hl he
    rw [fetchHealthDataWithRetry.eq_def, dif_pos (by omega), ho]
    simp only
    rw [if_neg (by rw [hl]; exact Bool.false_ne_true),
      if_neg (by rw [he]; exact Bool.false_ne_true),
      if_neg (by omega : ¬a = DATA_RETRY_ATTEMPTS - 1)]
    have hlist : (tr ++ [FetchEvent.attempt a]) ++
        [FetchEvent.disconnect, FetchEvent.waitMs RECOVERY_DELAY_MS, FetchEvent.reconnect,
         FetchEvent.waitMs (RECOVERY_DELAY_MS * (a + 1))] =
        tr ++ [FetchEvent.attempt a, FetchEvent.disconnect,
               FetchEvent.waitMs RECOVERY_DELAY_MS, FetchEvent.reconnect,
               FetchEvent.waitMs (RECOVERY_DELAY_MS * (a + 1))] := by
      simp
    rw [hlist]

/-- An attempt oracle that always fails with an empty payload (Scenario C). -/
def alwaysEmptyOutcome : ℕ → Except FailMsg Unit := fun _ => .error ⟨false, true⟩

/-- C3 witness (Scenario C): when the very first attempt fails with an empty
payload, the loop stops after exactly one attempt and surfaces EMPTY_DATA. -/
theorem fetch_retry_bounded_and_recovery_witness :
    fetchHealthDataWithRetry alwaysEmptyOutcome 0 none [] =
      (Except.error emptyDataError, [FetchEvent.attempt 0]) ∧
    attemptCount (fetchHealthDataWithRetry alwaysEmptyOutcome 0 none []).2 ≤
      DATA_RETRY_ATTEMPTS := by
  constructor
  · have h := (fetch_retry_bounded_and_recovery alwaysEmptyOutcome).2.1 0 none []
      ⟨false, true⟩ (by norm_num [DATA_RETRY_ATTEMPTS]) rfl (Or.inr rfl)
    simpa using h
  · exact (fetch_retry_bounded_and_recovery alwaysEmptyOutcome).1


/-- C4 counterexample: from a zero counter, three consecutive TIMEOUT
failures leave the consecutive-error counter at 1, not at
MAX_CONSECUTIVE_ERRORS (3) - a TIMEOUT increments the counter only when it is
0 - and a non-manual tick shortly after the last error is not skipped. -/
theorem three_timeouts_no_cooldown_counterexample :
    (handleDeviceSyncError (handleDeviceSyncError (handleDeviceSyncError
        ⟨0, none, false⟩ timeoutFlags 0) timeoutFlags 60000) timeoutFlags
        120000).consecutiveErrorCount = 1 ∧
    (handleDeviceSyncError (handleDeviceSyncError (handleDeviceSyncError
        ⟨0, none, false⟩ timeoutFlags 0) timeoutFlags 60000) timeoutFlags
        120000).consecutiveErrorCount ≠ MAX_CONSECUTIVE_ERRORS ∧
    (performSafeSyncGuard (handleDeviceSyncError (handleDeviceSyncError (handleDeviceSyncError
        ⟨0, none, false⟩ timeoutFlags 0) timeoutFlags 60000) timeoutFlags 120000)
      130000 false).1 = false := by
  refine ⟨?_, ?_, ?_⟩ <;>
    simp [handleDeviceSyncError, timeoutFlags, performSafeSyncGuard, MAX_CONSECUTIVE_ERRORS]

/-- C4 (amended): a TIMEOUT-classified device-sync failure increments the
consecutive-error counter only when it is 0 (so three consecutive TIMEOUTs
from zero leave it at 1, below MAX_CONSECUTIVE_ERRORS); a non-manual tick is
skipped exactly when the counter has reached MAX_CONSECUTIVE_ERRORS and less
than ERROR_COOLDOWN_MS (5 minutes) have passed since the last error; any sync
success resets the counter to 0 and clears the error time. -/
theorem timeout_counter_and_cooldown (st : AutoSyncState) (now now2 : ℚ) :
    ((handleDeviceSyncError st timeoutFlags now).consecutiveErrorCount =
      if st.consecutiveErrorCount = 0 then 1 else st.consecutiveErrorCount) ∧
    ((performSafeSyncGuard st now2 false).1 = true ↔
      MAX_CONSECUTIVE_ERRORS ≤ st.consecutiveErrorCount ∧
        (match st.lastErrorTime with
         | some t => now2 - t
         | none => 0) < ERROR_COOLDOWN_MS) ∧
    (deviceSyncSuccess st).consecutiveErrorCount = 0 ∧
    (deviceSyncSuccess st).lastErrorTime = none := by
  refine ⟨?_, ?_, rfl, rfl⟩
  · simp only [handleDeviceSyncError, timeoutFlags]
    simp only [Bool.false_eq_true, if_false]
    split_ifs with h1 h2 <;> simp <;> omega
  · unfold performSafeSyncGuard
    rw [if_neg (by simp : ¬false = true)]
    split_ifs with h1
    · by_cases h2 : (match st.lastErrorTime with
          | some t => now2 - t
          | none => 0) < ERROR_COOLDOWN_MS
      · rw [if_pos h2]
        simp [h1, h2]
      · rw [if_neg h2]
        simp [h2]
    · simp [h1]


/-- C4 amended witness: a first TIMEOUT raises the counter from 0 to 1. -/
theorem timeout_counter_and_cooldown_witness :
    (handleDeviceSyncError ⟨0, none, false⟩ timeoutFlags 5).consecutiveErrorCount = 1 := by
  have h := (timeout_counter_and_cooldown ⟨0, none, false⟩ 5 6).1
  simpa using h

lemma dedupeFirstByUuid_first_occurrence (l : List ScanDevice) :
    ∀ seen, ∀ d ∈ dedupeFirstByUuid seen l,
      d.uuid ∉ seen ∧ l.find? (fun x => x.uuid == d.uuid) = some d := by
  induction l with
  | nil =>
    intro seen d hd
    simp [dedupeFirstByUuid] at hd
  | cons hd t ih =>
    intro seen d hdm
    unfold dedupeFirstByUuid at hdm
    by_cases hs : hd.uuid ∈ seen
    · rw [if_pos hs] at hdm
      obtain ⟨hnot, hfind⟩ := ih seen d hdm
      refine ⟨hnot, ?_⟩
      rw [List.find?_cons_of_neg, hfind]
      simp only [beq_iff_eq]
      exact fun hcon => hnot (hcon ▸ hs)
    · rw [if_neg hs] at hdm
      rcases List.mem_cons.mp hdm with rfl | hdm2
      · refine ⟨hs, ?_⟩
        rw [List.find?_cons_of_pos]
        simp
      · obtain ⟨hnot, hfind⟩ := ih (hd.uuid :: seen) d hdm2
        have hne : hd.uuid ≠ d.uuid := by
          intro hcon
          exact hnot (by rw [← hcon]; exact List.mem_cons_self _ _)
        refine ⟨fun hcon => hnot (List.mem_cons_of_mem _ hcon), ?_⟩
        rw [List.find?_cons_of_neg, hfind]
        simp only [beq_iff_eq]
        exact hne

lemma dedupeFirstByUuid_keys_nodup (l : List ScanDevice) :
    ∀ seen, ((dedupeFirstByUuid seen l).map (fun d => d.uuid)).Nodup ∧
      ∀ d ∈ dedupeFirstByUuid seen l, d.uuid ∉ seen := by
  induction l with
  | nil =>
    intro seen
    simp [dedupeFirstByUuid]
  | cons hd t ih =>
    intro seen
    unfold dedupeFirstByUuid
    by_cases hs : hd.uuid ∈ seen
    · rw [if_pos hs]
      exact ih seen
    · rw [if_neg hs]
      obtain ⟨hnd, hrest⟩ := ih (hd.uuid :: seen)
      refine ⟨?_, ?_⟩
      · simp only [List.map_cons, List.nodup_cons]
        refine ⟨?_, hnd⟩
        intro hcon
        rcases List.mem_map.mp hcon with ⟨d, hdm, hdu⟩
        exact (hrest d hdm) (by rw [hdu]; exact List.mem_cons_self _ _)
      · intro d hdm
        rcases List.mem_cons.mp hdm with rfl | hdm2
        · exact hs
        · exact fun hcon => (hrest d hdm2) (List.mem_cons_of_mem _ hcon)

lemma dedupeFirstByUuid_covers (l : List ScanDevice) :
    ∀ seen, ∀ d0 ∈ l, d0.uuid ∈ seen ∨ ∃ d ∈ dedupeFirstByUuid seen l, d.uuid = d0.uuid := by
  induction l with
  | nil =>
    intro seen d0 h
    simp at h
  | cons hd t ih =>
    intro seen d0 hd0
    unfold dedupeFirstByUuid
    by_cases hs : hd.uuid ∈ seen
    · rw [if_pos hs]
      rcases List.mem_cons.mp hd0 with rfl | hd0t
      · exact Or.inl hs
      · exact ih seen d0 hd0t
    · rw [if_neg hs]
      rcases List.mem_cons.mp hd0 with rfl | hd0t
      · exact Or.inr ⟨d0, List.mem_cons_self _ _, rfl⟩
      · rcases ih (hd.uuid :: seen) d0 hd0t with hmem | ⟨d, hdm, hdu⟩
        · rcases List.mem_cons.mp hmem with heq | hseen
          · exact Or.inr ⟨hd, List.mem_cons_self _ _, heq.symm⟩
          · exact Or.inl hseen
        · exact Or.inr ⟨d, List.mem_cons_of_mem _ hdm, hdu⟩

lemma performScan_passes_le (env : ScanEnv) (dt : Option String) (a : ℕ) :
    (performScan env dt a).2 ≤ MAX_SCAN_RETRIES := by
  rw [performScan.eq_def]
  simp only [MAX_SCAN_RETRIES]
  split_ifs with h1 h2
  · simp
  · rw [performScan.eq_def]
    simp only [MAX_SCAN_RETRIES]
    split_ifs with h3
    · exact absurd h3.2 (by omega)
    · simp
  · simp

/-- C6 (amended): a scan whose guard checks pass runs at most
MAX_SCAN_RETRIES (2) discovery passes in total - one retry when the first
pass dedupes to zero devices, not two - and the devices of the successful
pass are normalized by aliasing the alternate id field onto the canonical
uuid key and deduplicated keeping the first occurrence of each uuid. -/
theorem scan_retry_and_dedupe :
    (∀ env dt a, (performScan env dt a).2 ≤ MAX_SCAN_RETRIES) ∧
    (∀ l : List ScanDevice,
      ((dedupeFirstByUuid [] l).map (fun d => d.uuid)).Nodup ∧
      (∀ d ∈ dedupeFirstByUuid [] l, l.find? (fun x => x.uuid == d.uuid) = some d) ∧
      (∀ d0 ∈ l, ∃ d ∈ dedupeFirstByUuid [] l, d.uuid = d0.uuid)) ∧
    (∀ env dt, scanGuardsPass env dt = true →
      (dedupeFirstByUuid [] ((env.discover 0).map normalizeScanDevice)).isEmpty = false →
      performScan env dt 0 =
        (dedupeFirstByUuid [] ((env.discover 0).map normalizeScanDevice), 1)) ∧
    (∀ d : ScanDevice, (normalizeScanDevice d).uuid = strOr d.uuid d.id ∧
      (normalizeScanDevice d).id = strOr d.id d.uuid) := by
  refine ⟨fun env dt a => performScan_passes_le env dt a, ?_, ?_, fun d => ⟨rfl, rfl⟩⟩
  · intro l
    refine ⟨(dedupeFirstByUuid_keys_nodup l []).1, ?_, ?_⟩
    · intro d hd
      exact (dedupeFirstByUuid_first_occurrence l [] d hd).2
    · intro d0 hd0
      rcases dedupeFirstByUuid_covers l [] d0 hd0 with hmem | hex
      · simp at hmem
      · exact hex
  · intro env dt hguards hne
    rw [performScan.eq_def]
    simp only [MAX_SCAN_RETRIES]
    rw [if_neg (by simp [hguards])]
    rw [dif_neg (by simp [hne])]


/-- A scan environment whose discovery passes all come back empty. -/
def scanEnvAlwaysEmpty : ScanEnv := ⟨true, true, true, fun _ => []⟩

/-- C6 counterexample: when every discovery pass finds zero devices, the scan
performs exactly MAX_SCAN_RETRIES = 2 passes in total, i.e. a single retry
after the empty first pass - not the two retries (three passes) the claim
describes. -/
theorem scan_two_retries_counterexample :
    (performScan scanEnvAlwaysEmpty none 0).2 = 2 ∧
    ¬ (performScan scanEnvAlwaysEmpty none 0).2 = 3 := by
  have h : performScan scanEnvAlwaysEmpty none 0 = ([], 2) := by
    simp [performScan, scanGuardsPass, dedupeFirstByUuid, MAX_SCAN_RETRIES,
      scanEnvAlwaysEmpty]
  refine ⟨by rw [h], by rw [h]; simp⟩

/-- A scan environment whose discovery pass finds two records of the same
physical device, one carrying only uuid and one carrying only id. -/
def scanEnvOneDevice : ScanEnv :=
  ⟨true, true, true, fun _ => [⟨some "u1", none, "Ring"⟩, ⟨none, some "u1", "Ring2"⟩]⟩

/-- C6 witness: on a concrete environment the guard passes, the deduped first
pass is non-empty, and the scan returns it after one pass. -/
theorem scan_retry_and_dedupe_witness :
    scanGuardsPass scanEnvOneDevice none = true ∧
    (dedupeFirstByUuid []
      ((scanEnvOneDevice.discover 0).map normalizeScanDevice)).isEmpty = false ∧
    performScan scanEnvOneDevice none 0 =
      (dedupeFirstByUuid [] ((scanEnvOneDevice.discover 0).map normalizeScanDevice), 1) := by
  have hg : scanGuardsPass scanEnvOneDevice none = true := rfl
  have hne : (dedupeFirstByUuid []
      ((scanEnvOneDevice.discover 0).map normalizeScanDevice)).isEmpty = false := rfl
  exact ⟨hg, hne, scan_retry_and_dedupe.2.2.1 scanEnvOneDevice none hg hne⟩

lemma scanDevices_locked_all (env : ScanLockEnv) (b : Bool)
    (hp : ∀ rc, env.pending rc = none)
    (hc : ∀ rc, env.connInProgress rc = true) :
    ∀ k rc, rc + k = 5 → scanDevices env rc b = ([], List.replicate k 1000) := by
  intro k
  induction k with
  | zero =>
    intro rc h5
    rw [scanDevices.eq_def, hp rc]
    simp only []
    rw [dif_pos (by omega : 5 ≤ rc)]
    rfl
  | succ k ih =>
    intro rc h5
    rw [scanDevices.eq_def, hp rc]
    simp only []
    rw [dif_neg (by omega : ¬ 5 ≤ rc)]
    rw [if_pos (hc rc)]
    rw [ih (rc + 1) (by omega)]
    simp [List.replicate_succ]

/-- C7: while the connect lock (or, with bypassLocks false, the health-fetch
lock) is held, a scan request waits 1000 ms and recurses with an incremented
retry count, and when the lock is never released it gives up after 5 such
waits and returns an empty list. -/
theorem scan_lock_wait_bounded :
    (∀ env rc (b : Bool), env.pending rc = none → rc < 5 →
      env.connInProgress rc = true →
      scanDevices env rc b =
        ((scanDevices env (rc + 1) b).1, 1000 :: (scanDevices env (rc + 1) b).2)) ∧
    (∀ env rc, env.pending rc = none → rc < 5 →
      env.connInProgress rc = false → env.healthOpInProgress rc = true →
      scanDevices env rc false =
        ((scanDevices env (rc + 1) false).1, 1000 :: (scanDevices env (rc + 1) false).2)) ∧
    (∀ env (b : Bool), (∀ rc, env.pending rc = none) →
      (∀ rc, env.connInProgress rc = true) →
      scanDevices env 0 b = ([], List.replicate 5 1000)) := by
  refine ⟨?_, ?_, ?_⟩
  · intro env rc b hp h5 hc
    rw [scanDevices.eq_def, hp]
    simp only []
    rw [dif_neg (by omega : ¬ 5 ≤ rc)]
    rw [if_pos hc]
  · intro env rc hp h5 hc hh
    rw [scanDevices.eq_def, hp]
    simp only []
    rw [dif_neg (by omega : ¬ 5 ≤ rc)]
    rw [if_neg (by rw [hc]; simp : ¬ env.connInProgress rc = true)]
    simp [hh]
  · intro env b hp hc
    exact scanDevices_locked_all env b hp hc 5 0 rfl

/-- C7 witness: a concrete environment whose connect lock is always held
makes the scan give up after 5 waits of 1000 ms with an empty result. -/
theorem scan_lock_wait_bounded_witness :
    scanDevices ⟨fun _ => none, fun _ => true, fun _ => false, []⟩ 0 false =
      ([], List.replicate 5 1000) :=
  scan_lock_wait_bounded.2.2 ⟨fun _ => none, fun _ => true, fun _ => false, []⟩ false
    (fun _ => rfl) (fun _ => rfl)

/-- C9: single-flight scanning.  While a scan is in flight, a burst of n
further scan() callers leaves the scanner state unchanged - no new discovery
task is launched - and hands every caller the same pending task; and from an
idle scanner a burst of n + 1 callers launches exactly one discovery task,
which all n + 1 callers share. -/
theorem scan_single_flight :
    (∀ t L n, (scanArriveMany ⟨some t, L⟩ n).1 = ⟨some t, L⟩ ∧
      (scanArriveMany ⟨some t, L⟩ n).2 = List.replicate n t) ∧
    (∀ L n, (scanArriveMany ⟨none, L⟩ (n + 1)).1 = ⟨some L, L + 1⟩ ∧
      (scanArriveMany ⟨none, L⟩ (n + 1)).2 = List.replicate (n + 1) L) := by
  have main : ∀ t L n, (scanArriveMany ⟨some t, L⟩ n).1 = ⟨some t, L⟩ ∧
      (scanArriveMany ⟨some t, L⟩ n).2 = List.replicate n t := by
    intro t L n
    induction n with
    | zero => exact ⟨rfl, rfl⟩
    | succ n ih =>
      have h1 : scanArrive ⟨some t, L⟩ = (⟨some t, L⟩, t) := rfl
      refine ⟨?_, ?_⟩
      · simp only [scanArriveMany, h1]
        exact ih.1
      · simp only [scanArriveMany, h1]
        rw [ih.2, List.replicate_succ]
  refine ⟨main, fun L n => ?_⟩
  have h1 : scanArrive ⟨none, L⟩ = (⟨some L, L + 1⟩, L) := rfl
  refine ⟨?_, ?_⟩
  · simp only [scanArriveMany, h1]
    exact (main L (L + 1) n).1
  · simp only [scanArriveMany, h1]
    rw [(main L (L + 1) n).2, List.replicate_succ]

/-- C10: connectDevice releases its locks on every path.  Starting from a
state with the connecting flag clear, whatever the oracle reports (already
connected, redundant-check success, body success or failure, or a thrown
error), the final state has the connecting flag false and the sanitized uuid
absent from the connection-attempt set. -/
theorem connect_releases_locks (o : ConnectOracle) (st : ConnState) (uuid : String)
    (skip : Bool) (h0 : st.isConnecting = false) :
    ((connectDevice o st uuid skip).2).isConnecting = false ∧
    (cleanUuid uuid ≠ "" →
      cleanUuid uuid ∉ ((connectDevice o st uuid skip).2).connectionAttempts) := by
  unfold connectDevice
  by_cases h1 : cleanUuid uuid = ""
  · rw [if_pos h1]
    exact ⟨h0, fun hne => absurd h1 hne⟩
  · rw [if_neg h1]
    simp only []
    split_ifs with h2 h3 h4 <;> simp [h0, Finset.not_mem_erase]

/-- C10 witness: a concrete connect run leaves the connecting flag clear and
the sanitized uuid out of the attempt set. -/
theorem connect_releases_locks_witness :
    ((connectDevice ⟨false, false, false, Except.ok true⟩ ⟨false, ∅⟩ " AB12 " false).2).isConnecting = false ∧
    (cleanUuid " AB12 " ≠ "" →
      cleanUuid " AB12 " ∉ ((connectDevice ⟨false, false, false, Except.ok true⟩ ⟨false, ∅⟩ " AB12 " false).2).connectionAttempts) :=
  connect_releases_locks ⟨false, false, false, Except.ok true⟩ ⟨false, ∅⟩ " AB12 " false rfl


/-! Idempotence of normalization: the congruence of each metric normalizer in
the extracted data array, and the run-twice theorem. -/

lemma normalizeHeartRateMetric_congr (r1 r2 : RawData) (config : FieldMapping)
    (p : String) (range : DayRange) (hp : p ≠ "ios")
    (h : extractDataArray r1 config.dataPath = extractDataArray r2 config.dataPath) :
    normalizeHeartRateMetric r1 config p range = normalizeHeartRateMetric r2 config p range := by
  simp only [normalizeHeartRateMetric, validateAndCleanData, if_neg hp]
  rw [h]

lemma normalizeSpo2Metric_congr (r1 r2 : RawData) (config : FieldMapping)
    (p : String) (range : DayRange) (hp : p ≠ "ios")
    (h : extractDataArray r1 config.dataPath = extractDataArray r2 config.dataPath) :
    normalizeSpo2Metric r1 config p range = normalizeSpo2Metric r2 config p range := by
  simp only [normalizeSpo2Metric, validateAndCleanData, if_neg hp]
  rw [h]

lemma normalizeStepsMetricAndroid_fst_congr (r1 r2 : RawData) (config : FieldMapping)
    (dt : String) (hc : HealthCalc) (day : DayRange) (now : ℚ)
    (h : extractDataArray r1 config.dataPath = extractDataArray r2 config.dataPath) :
    (normalizeStepsMetricAndroid r1 config dt hc day now).1 =
      (normalizeStepsMetricAndroid r2 config dt hc day now).1 := by
  simp only [normalizeStepsMetricAndroid]
  rw [h]
  cases nonEmptyArr (extractDataArray r2 config.dataPath) <;> rfl

lemma normalizeStepsMetricAndroid_payload (r : RawData) (config : FieldMapping)
    (dt : String) (hc : HealthCalc) (day : DayRange) (now : ℚ) :
    (normalizeStepsMetricAndroid r config dt hc day now).2 = r ∨
    ∃ arr, (normalizeStepsMetricAndroid r config dt hc day now).2 = setCombinedData r arr := by
  simp only [normalizeStepsMetricAndroid]
  cases nonEmptyArr (extractDataArray r config.dataPath) with
  | none =>
    exact Or.inl rfl
  | some arr =>
    by_cases hcomb : isCombinedStepData arr
    · exact Or.inr ⟨arr, by simp [hcomb]⟩
    · exact Or.inl (by simp [hcomb])

lemma normalizeCaloriesMetric_congr (r1 r2 : RawData) (config : FieldMapping)
    (dt : String) (hc : HealthCalc) (day : DayRange)
    (h : extractDataArray r1 config.dataPath = extractDataArray r2 config.dataPath) :
    normalizeCaloriesMetric r1 config dt hc day = normalizeCaloriesMetric r2 config dt hc day := by
  simp only [normalizeCaloriesMetric]
  rw [h]

lemma normalizeDistanceMetric_congr (r1 r2 : RawData) (config : FieldMapping)
    (dt : String) (hc : HealthCalc) (day : DayRange)
    (h : extractDataArray r1 config.dataPath = extractDataArray r2 config.dataPath) :
    normalizeDistanceMetric r1 config dt hc day = normalizeDistanceMetric r2 config dt hc day := by
  simp only [normalizeDistanceMetric]
  rw [h]

lemma normalizeBatteryMetric_congr (r1 r2 : RawData) (config : FieldMapping) (now : ℚ)
    (h : extractDataArray r1 config.dataPath = extractDataArray r2 config.dataPath) :
    normalizeBatteryMetric r1 config now = normalizeBatteryMetric r2 config now := by
  simp only [normalizeBatteryMetric]
  rw [h]

lemma normalizeTemperatureMetric_congr (r1 r2 : RawData) (config : FieldMapping)
    (h : extractDataArray r1 config.dataPath = extractDataArray r2 config.dataPath) :
    normalizeTemperatureMetric r1 config = normalizeTemperatureMetric r2 config := by
  simp only [normalizeTemperatureMetric]
  rw [h]

lemma normalizeBloodPressureMetric_congr (r1 r2 : RawData) (config : BPMapping)
    (h : extractDataArray r1 config.dataPath = extractDataArray r2 config.dataPath) :
    normalizeBloodPressureMetric r1 config = normalizeBloodPressureMetric r2 config := by
  simp only [normalizeBloodPressureMetric]
  rw [h]

lemma normalizeSleepMetric_congr (r1 r2 : RawData) (config : SleepMapping)
    (day : DayRange) (now : ℚ)
    (h : extractDataArray r1 config.dataPath = extractDataArray r2 config.dataPath) :
    normalizeSleepMetric r1 config day now = normalizeSleepMetric r2 config day now := by
  simp only [normalizeSleepMetric]
  rw [h]

lemma normalizeHealthData_some_eq (raw : RawData) (dt p hp : String) (hc : HealthCalc)
    (day : DayRange) (now : ℚ) :
    normalizeHealthData (some raw) dt p hp hc day now =
      ({ heartRate := normalizeHeartRateMetric raw
           (applyPlatformAdjustments (getDeviceMapping hp dt) p).heartRate p day
         spo2 := normalizeSpo2Metric raw
           (applyPlatformAdjustments (getDeviceMapping hp dt) p).spo2 p day
         steps := (normalizeStepsMetric raw
           (applyPlatformAdjustments (getDeviceMapping hp dt) p).steps dt p hc day now).1
         calories := normalizeCaloriesMetric
           (normalizeStepsMetric raw
             (applyPlatformAdjustments (getDeviceMapping hp dt) p).steps dt p hc day now).2
           (applyPlatformAdjustments (getDeviceMapping hp dt) p).calories dt hc day
         distance := normalizeDistanceMetric
           (normalizeStepsMetric raw
             (applyPlatformAdjustments (getDeviceMapping hp dt) p).steps dt p hc day now).2
           (applyPlatformAdjustments (getDeviceMapping hp dt) p).distance dt hc day
         sleep := normalizeSleepMetric
           (normalizeStepsMetric raw
             (applyPlatformAdjustments (getDeviceMapping hp dt) p).steps dt p hc day now).2
           (applyPlatformAdjustments (getDeviceMapping hp dt) p).sleep day now
         bloodPressure := normalizeBloodPressureMetric
           (normalizeStepsMetric raw
             (applyPlatformAdjustments (getDeviceMapping hp dt) p).steps dt p hc day now).2
           (applyPlatformAdjustments (getDeviceMapping hp dt) p).bloodPressure
         temperature := normalizeTemperatureMetric
           (normalizeStepsMetric raw
             (applyPlatformAdjustments (getDeviceMapping hp dt) p).steps dt p hc day now).2
           (applyPlatformAdjustments (getDeviceMapping hp dt) p).temperature
         battery := normalizeBatteryMetric
           (normalizeStepsMetric raw
             (applyPlatformAdjustments (getDeviceMapping hp dt) p).steps dt p hc day now).2
           (applyPlatformAdjustments (getDeviceMapping hp dt) p).battery now
         lastSync := now
         deviceType := dt
         platform := p },
       some (normalizeStepsMetric raw
         (applyPlatformAdjustments (getDeviceMapping hp dt) p).steps dt p hc day now).2) := rfl

/-- C8: normalization is idempotent once the current-day boundary and clock
are held fixed: running normalizeHealthData a second time on the payload
exactly as the first run left it (including the combinedData entry the
Android steps path may alias onto it) reproduces the same canonical record
in every metric slot. -/
theorem normalize_idempotent (raw : Option RawData) (deviceType platform hostPlatform : String)
    (hc : HealthCalc) (day : DayRange) (now : ℚ) :
    (normalizeHealthData
        (normalizeHealthData raw deviceType platform hostPlatform hc day now).2
        deviceType platform hostPlatform hc day now).1 =
      (normalizeHealthData raw deviceType platform hostPlatform hc day now).1 := by
  cases raw with
  | none => rfl
  | some r =>
    by_cases hplat : platform = "android"
    · subst hplat
      obtain ⟨hcs, hhr, hsp, hst, hca, hdi, hsl, hbp, hte, hba⟩ :=
        mappingPathsOk_applyPlatformAdjustments (getDeviceMapping hostPlatform deviceType)
          "android" (mappingPathsOk_getDeviceMapping hostPlatform deviceType)
      rw [normalizeHealthData_some_eq]
      simp only [normalizeStepsMetric_android]
      rw [normalizeHealthData_some_eq]
      simp only [normalizeStepsMetric_android, NormalizedHealthData.mk.injEq]
      have hx1 : ∀ p2, p2 ≠ "combinedData" →
          extractDataArray
            (normalizeStepsMetricAndroid r
              (applyPlatformAdjustments (getDeviceMapping hostPlatform deviceType)
                "android").steps deviceType hc day now).2 p2 =
            extractDataArray r p2 := by
        intro p2 hp2
        rcases normalizeStepsMetricAndroid_payload r
            (applyPlatformAdjustments (getDeviceMapping hostPlatform deviceType)
              "android").steps deviceType hc day now with hcase | ⟨arr, hcase⟩
        · rw [hcase]
        · rw [hcase, extractDataArray_setCombinedData _ _ _ hp2]
      have hx2 : ∀ p2, p2 ≠ "combinedData" →
          extractDataArray
            (normalizeStepsMetricAndroid
              (normalizeStepsMetricAndroid r
                (applyPlatformAdjustments (getDeviceMapping hostPlatform deviceType)
                  "android").steps deviceType hc day now).2
              (applyPlatformAdjustments (getDeviceMapping hostPlatform deviceType)
                "android").steps deviceType hc day now).2 p2 =
            extractDataArray
              (normalizeStepsMetricAndroid r
                (applyPlatformAdjustments (getDeviceMapping hostPlatform deviceType)
                  "android").steps deviceType hc day now).2 p2 := by
        intro p2 hp2
        rcases normalizeStepsMetricAndroid_payload
            (normalizeStepsMetricAndroid r
              (applyPlatformAdjustments (getDeviceMapping hostPlatform deviceType)
                "android").steps deviceType hc day now).2
            (applyPlatformAdjustments (getDeviceMapping hostPlatform deviceType)
              "android").steps deviceType hc day now with hcase | ⟨arr, hcase⟩
        · rw [hcase]
        · rw [hcase, extractDataArray_setCombinedData _ _ _ hp2]
      refine ⟨?_, ?_, ?_, ?_, ?_, ?_, ?_, ?_, ?_, by trivial, by trivial, by trivial⟩
      · exact normalizeHeartRateMetric_congr _ _ _ _ _ (by simp) (hx1 _ hhr)
      · exact normalizeSpo2Metric_congr _ _ _ _ _ (by simp) (hx1 _ hsp)
      · exact normalizeStepsMetricAndroid_fst_congr _ _ _ _ _ _ _ (hx1 _ hst)
      · exact normalizeCaloriesMetric_congr _ _ _ _ _ _ (hx2 _ hca)
      · exact normalizeDistanceMetric_congr _ _ _ _ _ _ (hx2 _ hdi)
      · exact normalizeSleepMetric_congr _ _ _ _ _ (hx2 _ hsl)
      · exact normalizeBloodPressureMetric_congr _ _ _ (hx2 _ hbp)
      · exact normalizeTemperatureMetric_congr _ _ _ (hx2 _ hte)
      · exact normalizeBatteryMetric_congr _ _ _ _ (hx2 _ hba)
    · have hsame : (normalizeHealthData (some r) deviceType platform hostPlatform
          hc day now).2 = some r := by
        rw [normalizeHealthData_some_eq]
        simp only [normalizeStepsMetric_notAndroid _ _ _ _ _ _ _ hplat]
      rw [hsame]

end SmartRing
